import Mathlib

/-!
Verification of the Transformers-to-ADK adapter module
(`src/api/sample_agent/transformers_llm.py`) against its natural-language
specification.

The module is shallowly embedded: every relevant Python function of the
`TransformersLlm` class is translated into an executable Lean definition of
the same name (leading underscores dropped).  Dynamic JSON values are
modelled by the inductive `JValue`; Python `str` is modelled by `String`
with helper functions reproducing the Python string operations used by the
source (`strip`, `startswith`, `endswith`, `in`, `lower`, `split`).

Calls into the Python standard library whose exact behaviour is outside
the repository (`json.loads`, `json.dumps`, `hash`, `base64.b64encode`)
are modelled by an explicit environment record `PyEnv`; theorems quantify
over the environment, and concrete witnesses instantiate it with small
functions whose outputs agree with the real library on every string they
are applied to.  This is faithful to the source: the adapter's logic never
inspects these functions beyond their outputs (and Python's string `hash`
is seed-randomised, so quantifying over it is the only sound reading).

Python runtime exceptions that the source code routes through `except`
clauses are modelled by the error monad `Except PyExc`.
-/

namespace TransformersLlm

/-- A parsed JSON value (the result of Python's `json.loads`, and the shape
of already-decoded API payloads).  Objects are insertion-ordered key/value
lists with distinct keys, matching Python's `dict`. -/
inductive JValue where
  | null
  | bool (b : Bool)
  | num (n : Int)
  | str (s : String)
  | arr (xs : List JValue)
  | obj (kvs : List (String × JValue))

/-- Python `dict` key lookup (`d[k]` on a present key / `d.get(k)`). -/
def jlookup (kvs : List (String × JValue)) (k : String) : Option JValue :=
  match kvs with
  | [] => none
  | (k', v) :: rest => if k' = k then some v else jlookup rest k

/-- Python truthiness of a JSON value (`if x:`). -/
def pyTruthy : JValue → Bool
  | .null => false
  | .bool b => b
  | .num n => n != 0
  | .str s => s != ""
  | .arr xs => !xs.isEmpty
  | .obj kvs => !kvs.isEmpty

/-- A Python exception escaping an expression, as discriminated by the
source's `except` clauses. -/
inductive PyExc where
  | keyError (k : String)
  | typeError (m : String)
  | attributeError (m : String)

/-- The stdlib functions the module calls whose implementations live outside
the repository.  `json_loads` returns `none` exactly when the real
`json.loads` raises `JSONDecodeError`. -/
structure PyEnv where
  json_loads : String → Option JValue
  json_dumps : JValue → String
  py_hash : String → Int
  b64encode : List Nat → String

/-! ## Python string primitives (over `String.data : List Char`) -/

/-- The characters removed by Python's `str.strip()`. -/
def isPySpace (c : Char) : Bool :=
  c = ' ' || c = '\t' || c = '\n' || c = '\r' || c.toNat = 11 || c.toNat = 12

/-- `needle.isPrefixOf hay` on char lists, written out so that all proofs
are self-contained. -/
def hasPrefixL : List Char → List Char → Bool
  | _, [] => true
  | [], _ :: _ => false
  | h :: hs, n :: ns => h == n && hasPrefixL hs ns

/-- Python's substring containment `needle in hay` on char lists. -/
def hasInfixL (hay needle : List Char) : Bool :=
  hasPrefixL hay needle ||
    match hay with
    | [] => false
    | _ :: t => hasInfixL t needle

/-- Python `str.strip()` on char lists. -/
def stripL (w : List Char) : List Char :=
  ((w.dropWhile isPySpace).reverse.dropWhile isPySpace).reverse

/-- Python `str.strip()`. -/
def pyStrip (s : String) : String := ⟨stripL s.data⟩

/-- Python `str.startswith`. -/
def pyStartsWith (s pre : String) : Bool := hasPrefixL s.data pre.data

/-- Python `str.endswith`. -/
def pyEndsWith (s suf : String) : Bool := hasPrefixL s.data.reverse suf.data.reverse

/-- Python substring test `needle in s`. -/
def pyContains (s needle : String) : Bool := hasInfixL s.data needle.data

/-- Python `str.lower()` (the source only lower-cases ASCII text). -/
def pyLower (s : String) : String := ⟨s.data.map Char.toLower⟩

/-- Python `str.split(sep)` for a one-character separator, e.g.
`response_text.split('\n')`. -/
def pySplitChar (c : Char) (s : String) : List String :=
  go s.data []
where
  go : List Char → List Char → List String
    | [], cur => [⟨cur.reverse⟩]
    | x :: xs, cur =>
      if x = c then ⟨cur.reverse⟩ :: go xs [] else go xs (x :: cur)

/-- Python `s[n:]` for a nonnegative index. -/
def pyDrop (s : String) (n : Nat) : String := ⟨s.data.drop n⟩

/-! ## The framework-side data model (`google.genai` types used by the source) -/

/-- `types.Blob` — inline binary media. Bytes are modelled as a list of
byte values. -/
structure Blob where
  mime_type : Option String := none
  data : Option (List Nat) := none

/-- `types.FileData`. -/
structure FileData where
  file_uri : Option String := none

/-- `types.FunctionCall`.  `name` and `args` hold whatever dynamic values
the source put there (`Part.from_function_call` is modelled as a plain
constructor); Python `None` is `JValue.null`.  `id` is assigned after
construction by the source, hence a dynamic value as well. -/
structure FunctionCall where
  name : JValue := .null
  args : JValue := .null
  id : JValue := .null

/-- `types.FunctionResponse`. -/
structure FunctionResponse where
  id : Option String := none
  response : JValue := .null

/-- `types.Part` — a struct of optional fields, exactly as the source
consumes it (`part.text`, `part.inline_data`, …). -/
structure Part where
  text : Option String := none
  inline_data : Option Blob := none
  file_data : Option FileData := none
  function_call : Option FunctionCall := none
  function_response : Option FunctionResponse := none

/-- `types.Content`. -/
structure Content where
  role : Option String := none
  parts : List Part := []

/-- One framework `FinishReason` value used by the source. -/
inductive FinishReason where
  | STOP
  | MAX_TOKENS
  | SAFETY
  | FINISH_REASON_UNSPECIFIED

/-- The response content of an `LlmResponse` (`types.Content` with role
`"model"` and a list of produced parts). -/
structure MContent where
  role : String
  parts : List Part

/-- `LlmResponse`.  The source's `partial` flag is modelled by the field
`incremental` (that keyword is reserved here); it is `some true` on the
incremental streaming chunks and left unset (`none`) otherwise. -/
structure LlmResponse where
  content : Option MContent := none
  incremental : Option Bool := none
  finish_reason : Option FinishReason := none
  error_code : Option String := none
  error_message : Option String := none

/-- `types.Part(text=...)`. -/
def textPart (s : String) : Part := { text := some s }

/-- `types.Part.from_function_call(name=..., args=...)` followed by the
source's assignment of `part.function_call.id`. -/
def functionCallPart (name args id : JValue) : Part :=
  { function_call := some { name := name, args := args, id := id } }

/-! ## Message encoder (`_convert_role`, `_convert_parts_to_content`,
`_convert_contents_to_messages`) -/

/-- One item of a structured message-content list, tagged by its
`"type"` field. -/
inductive ContentItem where
  | text (s : String)
  | image_url (url : String)
  | input_audio (data : String) (format : String)

/-- A target message's `content` value: a bare string or a structured
list. -/
inductive MsgContent where
  | str (s : String)
  | items (xs : List ContentItem)

/-- One entry of an assistant message's `tool_calls` array
(`{"id": ..., "type": "function", "function": {"name", "arguments"}}`). -/
structure ToolCallObj where
  id : JValue
  name : JValue
  arguments : String

/-- A target API message.  `tool_call_id` is present (possibly carrying
Python `None`) exactly on `role="tool"` messages; `tool_calls` is present
exactly when the source added a non-empty array. -/
structure Message where
  role : String
  content : MsgContent
  tool_call_id : Option (Option String) := none
  tool_calls : Option (List ToolCallObj) := none

/-- Truthiness of an optional string attribute (`if part.text:`). -/
def truthyOptStr : Option String → Bool
  | some s => s != ""
  | none => false

/-- `_convert_role`. -/
def convert_role (role : Option String) : String :=
  if role = some "model" || role = some "assistant" then "assistant"
  else if role = some "user" then "user"
  else if role = some "system" then "system"
  else "user"

/-- The `file_data` arm of the part-to-content chain. -/
def fileItemOfPart (p : Part) : List ContentItem :=
  match p.file_data with
  | some fd =>
    if truthyOptStr fd.file_uri then
      let uri := fd.file_uri.getD ""
      if pyStartsWith uri "http://" || pyStartsWith uri "https://" then
        [.image_url uri]
      else
        [.text ("[File: " ++ uri ++ "]")]
    else []
  | none => []

/-- The items contributed by one part in `_convert_parts_to_content`'s
`if`/`elif` chain (zero or one item). -/
def itemOfPart (env : PyEnv) (p : Part) : List ContentItem :=
  if truthyOptStr p.text then
    [.text (p.text.getD "")]
  else
    match p.inline_data with
    | some b =>
      if truthyOptStr b.mime_type && !(b.data.getD []).isEmpty && b.data.isSome then
        let mime := b.mime_type.getD ""
        if pyStartsWith mime "image" then
          [.image_url ("data:" ++ mime ++ ";base64," ++ env.b64encode (b.data.getD []))]
        else if pyStartsWith mime "audio" then
          [.input_audio (env.b64encode (b.data.getD []))
            (((pySplitChar '/' mime).getLast?).getD "")]
        else []
      else fileItemOfPart p
    | none => fileItemOfPart p

/-- The `content_parts` list accumulated by `_convert_parts_to_content`
before the final collapse. -/
def rawContentItems (env : PyEnv) (parts : List Part) : List ContentItem :=
  parts.flatMap (itemOfPart env)

/-- `_convert_parts_to_content`: collapse a one-element text list to a bare
string, an empty list to `""`, and keep any other list structured. -/
def convert_parts_to_content (env : PyEnv) (parts : List Part) : MsgContent :=
  match rawContentItems env parts with
  | [.text t] => .str t
  | [] => .str ""
  | items => .items items

/-- The messages emitted for one `Content` entry by
`_convert_contents_to_messages`. -/
def messagesOfContent (env : PyEnv) (c : Content) : List Message :=
  if !c.parts.isEmpty && c.parts.any (fun p => p.function_response.isSome) then
    c.parts.filterMap (fun p =>
      p.function_response.map (fun fr =>
        { role := "tool"
          content := .str (env.json_dumps fr.response)
          tool_call_id := some fr.id }))
  else
    let base : Message :=
      { role := convert_role c.role
        content := convert_parts_to_content env c.parts }
    if (c.role = some "model" || c.role = some "assistant") && !c.parts.isEmpty then
      let tcs := c.parts.filterMap (fun p =>
        p.function_call.map (fun fc =>
          ({ id := fc.id, name := fc.name, arguments := env.json_dumps fc.args } : ToolCallObj)))
      if !tcs.isEmpty then [{ base with tool_calls := some tcs }] else [base]
    else [base]

/-- `_convert_contents_to_messages`. -/
def convert_contents_to_messages (env : PyEnv) (contents : List Content) : List Message :=
  contents.flatMap (messagesOfContent env)

/-! ## Tool encoder and schema translator (`_convert_schema`,
`_convert_tools`) -/

/-- `types.Schema`, restricted to the attributes the source reads.
`type` holds the enum's value string. -/
inductive Schema where
  | mk (type : Option String) (description : Option String)
       (properties : List (String × Schema)) (items : Option Schema)
       (enum : Option (List String)) (required : Option (List String))

def Schema.properties : Schema → List (String × Schema)
  | .mk _ _ p _ _ _ => p

def Schema.required : Schema → Option (List String)
  | .mk _ _ _ _ _ r => r

mutual

/-- `_convert_schema`: structurally recursive translation into a JSON
object; absent/falsy fields are omitted, in the source's insertion order. -/
def convert_schema : Schema → JValue
  | .mk ty desc props its en _ =>
    let tyF := match ty with
      | some t => [("type", JValue.str (pyLower t))]
      | none => []
    let descF := match desc with
      | some d => if d ≠ "" then [("description", JValue.str d)] else []
      | none => []
    let propsF :=
      if props.isEmpty then []
      else [("properties", JValue.obj (convert_schema_props props))]
    let itsF := match its with
      | some s => [("items", convert_schema s)]
      | none => []
    let enF := match en with
      | some l => if l.isEmpty then [] else [("enum", JValue.arr (l.map .str))]
      | none => []
    .obj (tyF ++ descF ++ propsF ++ itsF ++ enF)

/-- The translated `properties` mapping, one entry per declared property. -/
def convert_schema_props : List (String × Schema) → List (String × JValue)
  | [] => []
  | (n, s) :: rest => (n, convert_schema s) :: convert_schema_props rest

end

/-- `types.FunctionDeclaration`. -/
structure FunctionDeclaration where
  name : String
  description : Option String := none
  parameters : Option Schema := none

/-- One entry of `LlmRequest.config.tools`. -/
structure ToolConfig where
  function_declarations : Option (List FunctionDeclaration) := none

/-- The tool definition built for one function declaration by
`_convert_tools`. -/
def toolOfDecl (fd : FunctionDeclaration) : JValue :=
  let fnBase := [("name", JValue.str fd.name),
                 ("description", JValue.str (fd.description.getD ""))]
  let paramsF := match fd.parameters with
    | some sc =>
      let propsVal := JValue.obj (convert_schema_props sc.properties)
      let reqF := match sc.required with
        | some r => if r.isEmpty then [] else [("required", JValue.arr (r.map .str))]
        | none => []
      [("parameters", JValue.obj ([("type", JValue.str "object"),
                                   ("properties", propsVal)] ++ reqF))]
    | none => []
  .obj [("type", .str "function"), ("function", .obj (fnBase ++ paramsF))]

/-- `_convert_tools`: `None` when the config has no tools or no tool yields
a definition; otherwise the non-empty list of definitions. -/
def convert_tools (tools_config : Option (List ToolConfig)) : Option (List JValue) :=
  match tools_config with
  | none => none
  | some tcs =>
    if tcs.isEmpty then none
    else
      let tools := tcs.flatMap (fun tc =>
        match tc.function_declarations with
        | none => []
        | some fds => if fds.isEmpty then [] else fds.map toolOfDecl)
      if tools.isEmpty then none else some tools

/-! ## Request assembly (`generate_content_async` up to dispatch,
`_add_generation_params`) -/

/-- `types.GenerateContentConfig`, restricted to the attributes the source
reads.  Float-valued sampling parameters are opaque scalars copied 1:1 and
never computed with; `Rat` is used as their carrier. -/
structure GenerateContentConfig where
  system_instruction : Option String := none
  tools : Option (List ToolConfig) := none
  temperature : Option Rat := none
  max_output_tokens : Option Int := none
  top_p : Option Rat := none
  stop_sequences : Option (List String) := none
  presence_penalty : Option Rat := none
  frequency_penalty : Option Rat := none

/-- `LlmRequest` as consumed by the source. -/
structure LlmRequest where
  contents : List Content
  config : GenerateContentConfig

/-- The outgoing `api_params` dictionary; `none` means an absent key. -/
structure ApiParams where
  model : String
  messages : List Message
  stream : Bool
  tools : Option (List JValue) := none
  tool_choice : Option String := none
  temperature : Option Rat := none
  max_tokens : Option Int := none
  top_p : Option Rat := none
  stop : Option (List String) := none
  presence_penalty : Option Rat := none
  frequency_penalty : Option Rat := none

/-- `_add_generation_params`. -/
def add_generation_params (p : ApiParams) (config : GenerateContentConfig) : ApiParams :=
  { p with
    temperature := config.temperature
    max_tokens := config.max_output_tokens
    top_p := config.top_p
    stop := match config.stop_sequences with
      | some l => if l.isEmpty then none else some l
      | none => none
    presence_penalty := config.presence_penalty
    frequency_penalty := config.frequency_penalty }

/-- The message list after the optional system-instruction insertion
(`messages.insert(0, ...)`). -/
def assembled_messages (env : PyEnv) (req : LlmRequest) : List Message :=
  let msgs := convert_contents_to_messages env req.contents
  match req.config.system_instruction with
  | some si => if si ≠ "" then { role := "system", content := .str si } :: msgs else msgs
  | none => msgs

/-- The keyword list of the tool-attachment gate. -/
def tool_keywords : List String := ["weather", "time", "temperature", "forecast", "clock"]

/-- `messages[-1].get("content", "")` with the source's
`if messages else {}` fallback. -/
def lastMessageContent (msgs : List Message) : MsgContent :=
  match msgs.getLast? with
  | some m => m.content
  | none => .str ""

/-- `generate_content_async`'s request assembly: message conversion, system
instruction, tool conversion, the keyword tool-attachment gate, and
generation parameters.  Calling `.lower()` on a structured (list-valued)
content raises `AttributeError`, modelled as the error case. -/
def build_api_params (env : PyEnv) (model : String) (req : LlmRequest) (stream : Bool) :
    Except PyExc ApiParams := do
  let messages := assembled_messages env req
  let tools := convert_tools req.config.tools
  let base : ApiParams := { model := model, messages := messages, stream := stream }
  let withTools ←
    match tools with
    | some ts =>
      if messages.any (fun m => m.role = "tool") then
        pure base
      else
        match lastMessageContent messages with
        | .str s =>
          pure (if tool_keywords.any (fun k => pyContains (pyLower s) k) then
              { base with tools := some ts, tool_choice := some "auto" }
            else base)
        | .items _ =>
          Except.error (.attributeError "'list' object has no attribute 'lower'")
    | none => pure base
  pure (add_generation_params withTools req.config)

/-! ## Heuristic function-call recovery and the streaming-suppression
heuristic (`_try_parse_function_call_from_text`,
`_looks_like_function_call_in_progress`, `_convert_finish_reason`) -/

/-- The `if`/`elif` shape chain of `_try_parse_function_call_from_text`
over the parsed object, with the synthesized call id passed in. -/
def tryShapes (env : PyEnv) (data : List (String × JValue)) (callId : JValue) : Option Part :=
  if (match jlookup data "type" with
      | some (.str s) => s == "function"
      | _ => false)
      && (jlookup data "function").isSome && (jlookup data "parameters").isSome then
    some (functionCallPart ((jlookup data "function").getD .null)
      (match jlookup data "parameters" with
       | some (JValue.obj kvs) => JValue.obj kvs
       | _ => JValue.obj []) callId)
  else if (jlookup data "name").isSome && (jlookup data "parameters").isSome then
    some (functionCallPart ((jlookup data "name").getD .null)
      (match jlookup data "parameters" with
       | some (JValue.obj kvs) => JValue.obj kvs
       | _ => JValue.obj []) callId)
  else
    match jlookup data "function" with
    | some (JValue.obj fkvs) =>
      match jlookup fkvs "name" with
      | some nm =>
        some (functionCallPart nm
          (match (jlookup fkvs "parameters").getD (JValue.obj []) with
           | JValue.str s2 => (env.json_loads s2).getD (JValue.obj [])
           | v => v) callId)
      | none => none
    | _ => none

/-- `_try_parse_function_call_from_text`.  JSON text bounded by `{`…`}`
always parses to an object with the real `json.loads`, so a non-object
parse result (unreachable with the real parser) yields no match. -/
def try_parse_function_call_from_text (env : PyEnv) (content : String)
    (allow_conversion : Bool) : Option Part :=
  if !allow_conversion then none
  else
    let cs := pyStrip content
    if !(pyStartsWith cs "\x7b" && pyEndsWith cs "\x7d") then none
    else
      match env.json_loads cs with
      | some (JValue.obj data) =>
        tryShapes env data (.str ("call_" ++ toString (env.py_hash cs % 10000)))
      | _ => none

/-- `_looks_like_function_call_in_progress`. -/
def looks_like_function_call_in_progress (content : String) : Bool :=
  let cs := pyStrip content
  if pyStartsWith cs "\x7b\"name\"" || pyStartsWith cs "\x7b\"type\"" then true
  else if pyContains cs "\x7b\"name\"" || pyContains cs "\x7b\"type\"" then true
  else false

/-- `_convert_finish_reason` (the source always returns a value; the
`Optional` return annotation is never `None`). -/
def convert_finish_reason (r : Option String) : FinishReason :=
  if r = some "stop" then .STOP
  else if r = some "length" then .MAX_TOKENS
  else if r = some "tool_calls" then .STOP
  else if r = some "content_filter" then .SAFETY
  else .FINISH_REASON_UNSPECIFIED

/-! ## Python dynamic-access helpers used by the decoders -/

/-- The `str(e)` message attached to error responses. -/
def excMessage : PyExc → String
  | .keyError k => "'" ++ k ++ "'"
  | .typeError m => m
  | .attributeError m => m

/-- Python `x[k]` with a string key: `dict` lookup, `KeyError` on a missing
key, `TypeError` on any non-dict. -/
def pyGetItem (v : JValue) (k : String) : Except PyExc JValue :=
  match v with
  | .obj kvs =>
    match jlookup kvs k with
    | some x => .ok x
    | none => .error (.keyError k)
  | _ => .error (.typeError "string indices must be integers")

/-- Python `k in x` for a string `k`: key test on dicts, membership on
lists, substring test on strings, `TypeError` otherwise. -/
def pyInKey (k : String) (v : JValue) : Except PyExc Bool :=
  match v with
  | .obj kvs => .ok (jlookup kvs k).isSome
  | .arr xs => .ok (xs.any (fun x => match x with | .str s => s = k | _ => false))
  | .str s => .ok (pyContains s k)
  | _ => .error (.typeError "argument is not iterable")

/-- Python `x.get(k, default)`: only dicts have `.get`. -/
def pyDictGet (v : JValue) (k : String) (default : JValue) : Except PyExc JValue :=
  match v with
  | .obj kvs => .ok ((jlookup kvs k).getD default)
  | _ => .error (.attributeError "object has no attribute get")

/-- Python `len(x)`. -/
def pyLen (v : JValue) : Except PyExc Nat :=
  match v with
  | .arr xs => .ok xs.length
  | .obj kvs => .ok kvs.length
  | .str s => .ok s.data.length
  | _ => .error (.typeError "object has no len")

/-- Python `x[0]`: list head, one-character string, `KeyError` on a dict
without an integer key, `TypeError`/`IndexError` otherwise (neither is
caught by any handler the source discriminates on). -/
def pyIdx0 (v : JValue) : Except PyExc JValue :=
  match v with
  | .arr (x :: _) => .ok x
  | .arr [] => .error (.typeError "list index out of range")
  | .str s =>
    match s.data with
    | c :: _ => .ok (.str ⟨[c]⟩)
    | [] => .error (.typeError "string index out of range")
  | .obj _ => .error (.keyError "0")
  | _ => .error (.typeError "object is not subscriptable")

/-! ## Non-streaming response decoder
(`_convert_raw_response_to_llm_response`) -/

/-- The per-tool-call loop body of `_convert_raw_response_to_llm_response`:
`some part` on success, `none` when this tool call is skipped by
`except (KeyError, json.JSONDecodeError): continue`; exceptions of any
other kind propagate to the outer handler. -/
def toolCallPartOf (env : PyEnv) (tc : JValue) : Except PyExc (Option Part) :=
  match tc with
  | .obj kvs =>
    match jlookup kvs "function" with
    | none => pure none
    | some (JValue.obj fkvs) =>
      match jlookup fkvs "name" with
      | none => pure none
      | some nm =>
        match jlookup fkvs "arguments" with
        | none => pure none
        | some av =>
          if pyTruthy av then
            match av with
            | .str s =>
              match env.json_loads s with
              | none => pure none
              | some args =>
                pure (some (functionCallPart nm args ((jlookup kvs "id").getD (.str ""))))
            | _ => Except.error (.typeError "the JSON object must be str")
          else
            pure (some (functionCallPart nm (JValue.obj []) ((jlookup kvs "id").getD (.str ""))))
    | some _ => Except.error (.typeError "string indices must be integers")
  | _ => Except.error (.typeError "string indices must be integers")

/-- The body of `_convert_raw_response_to_llm_response` inside its outer
`try`.  A truthy non-string `content` raises whichever way it is used
(`.strip()` in the recovery attempt, or text-part validation), modelled as
a single propagating error. -/
def convert_raw_inner (env : PyEnv) (response_data : JValue)
    (has_function_responses : Bool) : Except PyExc LlmResponse := do
  let hasChoices ← pyInKey "choices" response_data
  let choicesTruthy ←
    if hasChoices then do
      let cv ← pyGetItem response_data "choices"
      pure (pyTruthy cv)
    else pure false
  if !hasChoices || !choicesTruthy then
    pure { error_code := some "NO_CHOICES", error_message := some "No choices in response" }
  else do
    let cv ← pyGetItem response_data "choices"
    let choice ← pyIdx0 cv
    let message ← pyDictGet choice "message" (JValue.obj [])
    let content ← pyDictGet message "content" (.str "")
    let tool_calls ← pyDictGet message "tool_calls" (.arr [])
    let contentParts : List Part ←
      if pyTruthy content then
        match content with
        | .str s =>
          if !pyTruthy tool_calls then
            match try_parse_function_call_from_text env s (!has_function_responses) with
            | some p => pure [p]
            | none => pure [textPart s]
          else pure [textPart s]
        | _ => Except.error (.attributeError "content object has no attribute strip")
      else pure []
    let tcParts : List Part ←
      if pyTruthy tool_calls then
        match tool_calls with
        | .arr xs => do
          let opts ← xs.mapM (toolCallPartOf env)
          pure (opts.filterMap id)
        | _ => Except.error (.typeError "string indices must be integers")
      else pure []
    let parts := contentParts ++ tcParts
    if !parts.isEmpty then
      pure { content := some { role := "model", parts := parts }
             finish_reason := some .STOP }
    else
      pure { error_code := some "NO_CONTENT", error_message := some "No content in response" }

/-- `_convert_raw_response_to_llm_response` with its outermost
`except Exception` → `RAW_CONVERSION_ERROR`. -/
def convert_raw_response_to_llm_response (env : PyEnv) (response_data : JValue)
    (has_function_responses : Bool) : LlmResponse :=
  match convert_raw_inner env response_data has_function_responses with
  | .ok r => r
  | .error e =>
    { error_code := some "RAW_CONVERSION_ERROR", error_message := some (excMessage e) }

/-! ## SSE-shaped raw-body decoder (`_parse_raw_streaming_response`,
`_make_raw_http_request_async`) -/

/-- Processing of one line of an SSE-shaped body: `some fragment` when the
line contributed a truthy `choices[0].delta.content` value, `none`
otherwise.  The per-line `except` catches only `json.JSONDecodeError`
(a frame that fails to parse is skipped); every other exception
propagates. -/
def processFrame (env : PyEnv) (line : String) : Except PyExc (Option JValue) := do
  let l := pyStrip line
  if pyStartsWith l "data: " then
    match env.json_loads (pyDrop l 6) with
    | none => pure none
    | some data => do
      let hasChoices ← pyInKey "choices" data
      if hasChoices then do
        let cv ← pyGetItem data "choices"
        let n ← pyLen cv
        if n > 0 then do
          let choice ← pyIdx0 cv
          let hasDelta ← pyInKey "delta" choice
          if hasDelta then do
            let dv ← pyGetItem choice "delta"
            let hasContent ← pyInKey "content" dv
            if hasContent then do
              let c ← pyGetItem dv "content"
              if pyTruthy c then pure (some c) else pure none
            else pure none
          else pure none
        else pure none
      else pure none
  else pure none

/-- Python `''.join(content_parts)`: `TypeError` unless every collected
fragment is a string. -/
def joinStrs : List JValue → Except PyExc String
  | [] => .ok ""
  | .str s :: rest => do pure (s ++ (← joinStrs rest))
  | _ :: _ => .error (.typeError "sequence item: expected str instance")

/-- `_parse_raw_streaming_response`. -/
def parse_raw_streaming_response (env : PyEnv) (response_text : String)
    (has_function_responses : Bool) : Except PyExc LlmResponse := do
  let frags ← (pySplitChar '\n' response_text).mapM (processFrame env)
  let content_parts := frags.filterMap id
  let full_content ← joinStrs content_parts
  if full_content ≠ "" then
    match try_parse_function_call_from_text env full_content (!has_function_responses) with
    | some p =>
      pure { content := some { role := "model", parts := [p] }
             finish_reason := some .STOP }
    | none =>
      pure { content := some { role := "model", parts := [textPart full_content] }
             finish_reason := some .STOP }
  else
    pure { error_code := some "NO_CONTENT"
           error_message := some "No content found in streaming response" }

/-- `_make_raw_http_request_async` after a successful HTTP POST that
returned `body` as its 2xx response text: function-response detection from
the outgoing messages, the `data:`-prefix branch into the SSE decoder
versus plain JSON decoding, and the surrounding `except Exception` →
`ASYNC_RAW_HTTP_ERROR`.  The network call itself (and non-2xx statuses,
which raise into the same handler) is outside the model; `body` abstracts
the transport. -/
def make_raw_http_result (env : PyEnv) (api_params : ApiParams) (body : String) : LlmResponse :=
  let has_function_responses := api_params.messages.any (fun m => m.role = "tool")
  let response_text := pyStrip body
  if pyStartsWith response_text "data:" then
    match parse_raw_streaming_response env response_text has_function_responses with
    | .ok r => r
    | .error e =>
      { error_code := some "ASYNC_RAW_HTTP_ERROR", error_message := some (excMessage e) }
  else
    match env.json_loads body with
    | some data => convert_raw_response_to_llm_response env data has_function_responses
    | none =>
      { error_code := some "ASYNC_RAW_HTTP_ERROR", error_message := some "Expecting value" }

/-- The non-streaming path of `generate_content_async`: parameter assembly,
the raw HTTP call (the 2xx body produced by `transport`), and the
outermost `except Exception` → `TRANSFORMERS_API_ERROR` that converts any
assembly-time exception into a single error response. -/
def generate_content_non_streaming (env : PyEnv) (model : String) (req : LlmRequest)
    (transport : ApiParams → String) : List LlmResponse :=
  match build_api_params env model req false with
  | .ok p => [make_raw_http_result env p (transport p)]
  | .error e =>
    [{ error_code := some "TRANSFORMERS_API_ERROR", error_message := some (excMessage e) }]

/-! ## Streaming reconstructor (`_stream_completion`) -/

/-- `delta.tool_calls[i].function`. -/
structure DeltaFunction where
  name : Option String := none
  arguments : Option String := none

/-- One streamed tool-call fragment. -/
structure DeltaToolCall where
  index : Nat
  id : Option String := none
  function : Option DeltaFunction := none

/-- One chunk of the streaming response, as discriminated by
`_stream_completion`'s loop: a bare string, a chunk without (or with
empty) `choices`, or a decoded delta carrying optional text, tool-call
fragments (`[]` models both an absent and an empty `tool_calls`), and the
choice's `finish_reason`. -/
inductive StreamChunk where
  | str (s : String)
  | noChoices
  | delta (content : Option String) (tool_calls : List DeltaToolCall)
          (finish_reason : Option String)

/-- One entry of `accumulated_tool_calls`. -/
structure ToolCallAcc where
  id : String
  name : String
  arguments : String

/-- The loop state of `_stream_completion`: the accumulated text and the
insertion-ordered tool-call fragment map (Python dicts preserve insertion
order, and `.values()` iterates in it). -/
structure StreamState where
  accumulated_content : String
  accumulated_tool_calls : List (Nat × ToolCallAcc)

/-- Pointwise update of the fragment map at one index. -/
def updEntry (acc : List (Nat × ToolCallAcc)) (i : Nat) (f : ToolCallAcc → ToolCallAcc) :
    List (Nat × ToolCallAcc) :=
  acc.map (fun e => if e.1 = i then (e.1, f e.2) else e)

/-- The per-fragment accumulation step: initialize the entry on first
sight of an index (`tool_call.id or ""`), then append name and
argument-string fragments. -/
def accumulate_tool_call (acc : List (Nat × ToolCallAcc)) (tc : DeltaToolCall) :
    List (Nat × ToolCallAcc) :=
  let acc := if (acc.lookup tc.index).isSome then acc
             else acc ++ [(tc.index, { id := tc.id.getD "", name := "", arguments := "" })]
  let acc := match tc.function with
    | some f => match f.name with
      | some nm =>
        if nm ≠ "" then updEntry acc tc.index (fun a => { a with name := a.name ++ nm }) else acc
      | none => acc
    | none => acc
  match tc.function with
  | some f => match f.arguments with
    | some ar =>
      if ar ≠ "" then updEntry acc tc.index (fun a => { a with arguments := a.arguments ++ ar })
      else acc
    | none => acc
  | none => acc

/-- The function-call parts built on a finish chunk from the accumulated
tool-call fragments: one part per fragment with a non-empty name, with its
argument string JSON-decoded (`{}` on an empty string or a decode
failure). -/
def finishToolParts (env : PyEnv) (acc : List (Nat × ToolCallAcc)) : List Part :=
  acc.filterMap (fun e =>
    if e.2.name ≠ "" then
      let args := if e.2.arguments ≠ "" then (env.json_loads e.2.arguments).getD (JValue.obj [])
                  else JValue.obj []
      some (functionCallPart (.str e.2.name) args (.str e.2.id))
    else none)

/-- The finish-signal handling of `_stream_completion` (source lines
674-711), given the state after this chunk's text/tool-call updates: the
recovery attempt on the accumulated text (yielded alone on success), the
tool-call parts, and the combined final response when any parts remain. -/
def finishStep (env : PyEnv) (st : StreamState) (finish_reason : Option String) :
    List LlmResponse :=
  let fr := some (convert_finish_reason finish_reason)
  let recParts :=
    if st.accumulated_content ≠ "" then
      match try_parse_function_call_from_text env st.accumulated_content true with
      | some p =>
        ([({ content := some { role := "model", parts := [p] }
             finish_reason := fr } : LlmResponse)], ([] : List Part))
      | none => ([], [textPart st.accumulated_content])
    else ([], [])
  let parts := recParts.2 ++ finishToolParts env st.accumulated_tool_calls
  recParts.1 ++
    (if !parts.isEmpty then
      [({ content := some { role := "model", parts := parts }
          finish_reason := fr } : LlmResponse)]
    else [])

/-- The loop body of `_stream_completion` for one chunk: the updated state
and the responses yielded for this chunk, in yield order (the incremental
text chunk, if any, precedes the finish-step responses). -/
def processChunk (env : PyEnv) (st : StreamState) (ch : StreamChunk) :
    StreamState × List LlmResponse :=
  match ch with
  | .str s =>
    ({ st with accumulated_content := st.accumulated_content ++ s },
     [{ content := some { role := "model", parts := [textPart s] }, incremental := some true }])
  | .noChoices => (st, [])
  | .delta content tool_calls finish_reason =>
    let stOut1 :=
      if truthyOptStr content then
        let token := content.getD ""
        let acc' := st.accumulated_content ++ token
        let st' := { st with accumulated_content := acc' }
        if !looks_like_function_call_in_progress acc' then
          (st', [({ content := some { role := "model", parts := [textPart token] }
                    incremental := some true } : LlmResponse)])
        else (st', ([] : List LlmResponse))
      else (st, [])
    let st := stOut1.1
    let st :=
      if !tool_calls.isEmpty then
        { st with accumulated_tool_calls :=
            tool_calls.foldl accumulate_tool_call st.accumulated_tool_calls }
      else st
    let emitted2 :=
      if truthyOptStr finish_reason then finishStep env st finish_reason else []
    (st, stOut1.2 ++ emitted2)

/-- The chunk loop of `_stream_completion` run from a given state. -/
def runStream (env : PyEnv) (st : StreamState) (chunks : List StreamChunk) :
    StreamState × List LlmResponse :=
  match chunks with
  | [] => (st, [])
  | c :: rest =>
    let step := processChunk env st c
    let next := runStream env step.1 rest
    (next.1, step.2 ++ next.2)

/-- The loop state at stream start. -/
def initStreamState : StreamState :=
  { accumulated_content := "", accumulated_tool_calls := [] }

/-- `_stream_completion` over a chunk sequence delivered without transport
errors.  (The `except` fallback that re-emits accumulated text is driven
only by exceptions raised while pulling chunks from the network, which is
outside this pure model of the loop.) -/
def stream_completion (env : PyEnv) (chunks : List StreamChunk) : List LlmResponse :=
  (runStream env initStreamState chunks).2

/-- A final (non-incremental) response: the `partial` flag is unset. -/
def isFinal (r : LlmResponse) : Bool := r.incremental = none

/-- An incremental (`partial=true`) response. -/
def isIncrementalChunk (r : LlmResponse) : Bool := r.incremental = some true

/-- Whether a chunk is an already-decoded delta object. -/
def StreamChunk.isDelta : StreamChunk → Bool
  | .delta _ _ _ => true
  | .noChoices => true
  | .str _ => false

/-- The streaming path of `generate_content_async`: assembly, dispatch into
`_stream_completion` (the chunk sequence the transport would deliver for
the outgoing parameters is abstracted by `chunksOf`), and the outermost
exception handler. -/
def generate_content_streaming (env : PyEnv) (model : String) (req : LlmRequest)
    (chunksOf : ApiParams → List StreamChunk) : List LlmResponse :=
  match build_api_params env model req true with
  | .ok p => stream_completion env (chunksOf p)
  | .error e =>
    [{ error_code := some "TRANSFORMERS_API_ERROR", error_message := some (excMessage e) }]

/-! ## Specification-side definitions

The following definitions are written from the words of the specification
claims (not from the source); the claim theorems relate them to the source
embeddings above. -/

/-- "first match wins". -/
def firstMatch {α : Type} (a b : Option α) : Option α :=
  match a with
  | some x => some x
  | none => b

/-- "the parameters object (defaulting to \x7b\x7d when parameters is not
an object)". -/
def objOrEmpty : JValue → JValue
  | .obj kvs => .obj kvs
  | _ => .obj []

/-- Claim C2's shape 1: `type == "function"` with `function` and
`parameters` keys; yields that name and the parameters object. -/
def shape1Match (data : List (String × JValue)) : Option (JValue × JValue) :=
  let isTypeFunction : Bool := match jlookup data "type" with
    | some (.str s) => s == "function"
    | _ => false
  match jlookup data "function", jlookup data "parameters" with
  | some fn, some ps => if isTypeFunction then some (fn, objOrEmpty ps) else none
  | _, _ => none

/-- Claim C2's shape 2: `name` and `parameters` keys. -/
def shape2Match (data : List (String × JValue)) : Option (JValue × JValue) :=
  match jlookup data "name", jlookup data "parameters" with
  | some nm, some ps => some (nm, objOrEmpty ps)
  | _, _ => none

/-- Claim C2's shape 3: a nested object under `function` with a `name`
key; a string-valued `parameters` is JSON-decoded with fallback `\x7b\x7d`,
and (per the amended claim) any other non-object value is kept as-is. -/
def shape3Match (env : PyEnv) (data : List (String × JValue)) : Option (JValue × JValue) :=
  match jlookup data "function" with
  | some (.obj fkvs) =>
    match jlookup fkvs "name" with
    | some nm =>
      let ps := (jlookup fkvs "parameters").getD (.obj [])
      some (nm,
        match ps with
        | .str s => (env.json_loads s).getD (.obj [])
        | v => v)
    | none => none
  | _ => none

/-- The recovery heuristic as amended claim C2 describes it: absent unless
allowed, brace-bounded and JSON-parseable; otherwise the three shapes are
tried in order, first match wins, and the id is `call_` plus the hash of
the trimmed text modulo 10000. -/
def recoverySpec (env : PyEnv) (text : String) (allow : Bool) : Option Part :=
  if allow = false then none
  else
    let cs := pyStrip text
    if (pyStartsWith cs "\x7b" && pyEndsWith cs "\x7d") = false then none
    else
      match env.json_loads cs with
      | some (.obj data) =>
        match firstMatch (shape1Match data) (firstMatch (shape2Match data) (shape3Match env data)) with
        | some na =>
          some (functionCallPart na.1 na.2
            (.str ("call_" ++ toString (env.py_hash cs % 10000))))
        | none => none
      | _ => none

/-- The final responses amended claim C1 predicts for one finish chunk,
given the post-update accumulated text and tool-call fragments: the
recovered function-call part (if any) alone in one final response, and the
unrecovered text part together with the accumulated tool-call parts
combined into one further final response (omitted when empty), each
carrying the mapped finish reason. -/
def finishEmissionsSpec (env : PyEnv) (acc : String) (tcs : List (Nat × ToolCallAcc))
    (fr : Option String) : List LlmResponse :=
  let mapped := some (convert_finish_reason fr)
  let recovered := if acc ≠ "" then try_parse_function_call_from_text env acc true else none
  let combinedParts :=
    (match recovered with
     | some _ => []
     | none => if acc ≠ "" then [textPart acc] else [])
    ++ finishToolParts env tcs
  (match recovered with
   | some p => [({ content := some { role := "model", parts := [p] }
                   finish_reason := mapped } : LlmResponse)]
   | none => [])
  ++ (if !combinedParts.isEmpty then
        [({ content := some { role := "model", parts := combinedParts }
            finish_reason := mapped } : LlmResponse)]
      else [])

/-- The fragment one line contributes according to claim C5: for a
`data: ` frame that parses, the truthy string under
`choices[0].delta.content`. -/
def frameFragmentSpec (env : PyEnv) (line : String) : Option String :=
  let l := pyStrip line
  if pyStartsWith l "data: " then
    match env.json_loads (pyDrop l 6) with
    | some (.obj kvs) =>
      match jlookup kvs "choices" with
      | some (.arr (.obj ckvs :: _)) =>
        match jlookup ckvs "delta" with
        | some (.obj dkvs) =>
          match jlookup dkvs "content" with
          | some (.str s) => if s ≠ "" then some s else none
          | _ => none
        | _ => none
      | _ => none
    | _ => none
  else none

/-- Structural well-formedness of one SSE line: a frame that parses has
the wire-protocol shapes of spec section 6 (object payload, `choices` a
list whose head is an object, `delta` an object, truthy `content` a
string).  Lines that are not `data: ` frames, frames that fail to parse,
and empty `choices` lists are always fine. -/
def frameWellFormed (env : PyEnv) (line : String) : Bool :=
  let l := pyStrip line
  if pyStartsWith l "data: " then
    match env.json_loads (pyDrop l 6) with
    | none => true
    | some (.obj kvs) =>
      match jlookup kvs "choices" with
      | none => true
      | some (.arr []) => true
      | some (.arr (.obj ckvs :: _)) =>
        match jlookup ckvs "delta" with
        | none => true
        | some (.obj dkvs) =>
          match jlookup dkvs "content" with
          | none => true
          | some v => !pyTruthy v || (match v with | .str _ => true | _ => false)
        | some _ => false
      | some _ => false
    | some _ => false
  else true

/-- Concatenation in line order. -/
def concatStrs : List String → String
  | [] => ""
  | s :: rest => s ++ concatStrs rest

/-- Claim C5's description of the SSE-shaped body decoding: concatenate,
in line order, every fragment of each parseable frame. -/
def sse_concat (env : PyEnv) (t : String) : String :=
  concatStrs ((pySplitChar '\n' t).filterMap (frameFragmentSpec env))

/-- Claim C5's predicted response for an SSE-shaped body: the concatenated
text as a final STOP response (or the recovered function-call part when
recovery applies), and a `NO_CONTENT` error when the concatenation is
empty. -/
def sse_result (env : PyEnv) (t : String) (hfr : Bool) : LlmResponse :=
  let full := sse_concat env t
  if full ≠ "" then
    match try_parse_function_call_from_text env full (!hfr) with
    | some p =>
      { content := some { role := "model", parts := [p] }, finish_reason := some .STOP }
    | none =>
      { content := some { role := "model", parts := [textPart full] }
        finish_reason := some .STOP }
  else
    { error_code := some "NO_CONTENT"
      error_message := some "No content found in streaming response" }

/-- Structural well-formedness of one non-streaming `tool_calls` entry
for claim C8: an object whose `function` value, when present, is an object
whose truthy `arguments` value, when present, is a string. -/
def tcWellFormed : JValue → Bool
  | .obj kvs =>
    (match jlookup kvs "function" with
     | none => true
     | some (.obj fkvs) =>
       (match jlookup fkvs "arguments" with
        | none => true
        | some av => !pyTruthy av || (match av with | .str _ => true | _ => false))
     | some _ => false)
  | _ => false

/-- Amended claim C8's per-tool-call outcome: a function-call part with
the call's name, JSON-decoded arguments (`\x7b\x7d` for an empty or null
argument string) and its id (default `""`); the call is skipped (`none`)
when the `function`, `name` or `arguments` key is missing or the argument
string fails to decode.  (Only well-formed entries are relevant.) -/
def toolCallPartSpec (env : PyEnv) (tc : JValue) : Option Part :=
  match tc with
  | .obj kvs =>
    (match jlookup kvs "function" with
     | some (.obj fkvs) =>
       (match jlookup fkvs "name", jlookup fkvs "arguments" with
        | some nm, some av =>
          let idv := (jlookup kvs "id").getD (.str "")
          if pyTruthy av then
            match av with
            | .str s =>
              (match env.json_loads s with
               | some args => some (functionCallPart nm args idv)
               | none => none)
            | _ => none
          else some (functionCallPart nm (JValue.obj []) idv)
        | _, _ => none)
     | _ => none)
  | _ => none

/-- Condition (c) of claim C3 on the last converted message: its content
is a string whose lower-casing contains a trigger keyword. -/
def keywordHit : MsgContent → Bool
  | .str s => tool_keywords.any (fun k => pyContains (pyLower s) k)
  | .items _ => false

/-- The conjunction of claim C3's conditions (a), (b), (c). -/
def toolGateConds (env : PyEnv) (req : LlmRequest) : Bool :=
  (convert_tools req.config.tools).isSome
    && !(assembled_messages env req).any (fun m => m.role = "tool")
    && keywordHit (lastMessageContent (assembled_messages env req))

/-! ## Concrete instantiation data for witnesses and counterexamples -/

/-- A concrete environment for witnesses and counterexamples.
`json_loads` agrees with Python's `json.loads` on every string this file
applies it to (each listed JSON text parses to exactly the listed value;
`"oops"` and `"Hello"` fall through to the decode-failure default).
`json_dumps` agrees with `json.dumps` on the two values it is applied to.
`py_hash` is one admissible representative of Python's seed-randomised
string hash (the adapter only ever formats its value). -/
def testEnv : PyEnv :=
  { json_loads := fun s =>
      if s = "\x7b\"name\": \"f\", \"parameters\": \x7b\x7d\x7d" then
        some (.obj [("name", .str "f"), ("parameters", .obj [])])
      else if s = "\x7b\x7d" then some (.obj [])
      else if s = "\x7b\"function\": \x7b\"name\": \"f\", \"parameters\": 5\x7d\x7d" then
        some (.obj [("function", .obj [("name", .str "f"), ("parameters", .num 5)])])
      else if s = "\x7b\"choices\":[\x7b\"delta\":\x7b\"content\":\"Hello\"\x7d\x7d]\x7d" then
        some (.obj [("choices", .arr [.obj [("delta", .obj [("content", .str "Hello")])]])])
      else if s = "\x7b\"choices\":[\x7b\"delta\":\x7b\"content\":\"Hello\"\x7d,\"finish_reason\":\"length\"\x7d]\x7d" then
        some (.obj [("choices",
          .arr [.obj [("delta", .obj [("content", .str "Hello")]),
                      ("finish_reason", .str "length")]])])
      else none
    json_dumps := fun v =>
      match v with
      | .obj [("temp", .num 22)] => "\x7b\"temp\": 22\x7d"
      | _ => "null"
    py_hash := fun s => (s.data.length : Int)
    b64encode := fun _ => "" }

/-- Claim C1's counterexample chunk: one delta carrying text that recovers
to a function call, one tool-call fragment, and the finish signal. -/
def c1Chunk : StreamChunk :=
  .delta (some "\x7b\"name\": \"f\", \"parameters\": \x7b\x7d\x7d")
    [{ index := 0, id := some "x",
       function := some { name := some "g", arguments := some "\x7b\x7d" } }]
    (some "stop")

/-- Claim C2's counterexample input: leading whitespace (so the trimmed
and raw texts differ) and a shape-3 `parameters` that is neither an object
nor a string. -/
def c2Text : String := " \x7b\"function\": \x7b\"name\": \"f\", \"parameters\": 5\x7d\x7d"

/-- The SSE-shaped body of claim C5's end-to-end scenario. -/
def c5Body : String := "data: \x7b\"choices\":[\x7b\"delta\":\x7b\"content\":\"Hello\"\x7d\x7d]\x7d"

/-- Outgoing parameters of a conversation without tool results. -/
def c5Params : ApiParams :=
  { model := "m", messages := [{ role := "user", content := .str "hi" }], stream := false }

/-- Claim C6's witness entry: a text sibling part and two function-result
parts. -/
def c6Content : Content :=
  { role := some "user"
    parts := [textPart "sibling",
      { function_response := some { id := some "id1", response := .obj [("temp", .num 22)] } },
      { function_response := some { id := none, response := .null } }] }

/-- Claim C8's counterexample payload: a message with both content and one
tool call whose `function` object lacks the `arguments` key. -/
def c8CexData : JValue :=
  .obj [("choices", .arr [.obj [("message", .obj [
    ("content", .str "hi"),
    ("tool_calls", .arr [.obj [("function", .obj [("name", .str "f")])]])])]])]

/-- Claim C8's witness tool calls: one well-formed, one with malformed
argument JSON. -/
def c8WitToolCalls : List JValue :=
  [.obj [("id", .str "a"),
         ("function", .obj [("name", .str "f"), ("arguments", .str "\x7b\x7d")])],
   .obj [("function", .obj [("name", .str "g"), ("arguments", .str "oops")])]]

/-- Claim C8's witness message object: content plus the tool calls. -/
def c8WitMsg : List (String × JValue) :=
  [("content", .str "hi"), ("tool_calls", .arr c8WitToolCalls)]

/-- Claim C8's witness choice object. -/
def c8WitChoice : List (String × JValue) := [("message", .obj c8WitMsg)]

/-- Claim C8's witness payload. -/
def c8WitData : List (String × JValue) := [("choices", .arr [.obj c8WitChoice])]

/-- Claim C9's witness payload: a non-streaming response whose choice
carries `finish_reason: "length"`. -/
def c9Data : JValue :=
  .obj [("choices", .arr [.obj [("message", .obj [("content", .str "hi")]),
    ("finish_reason", .str "length")]])]

/-- Claim C9's witness SSE body, with `finish_reason: "length"` in the
frame. -/
def c9Body : String :=
  "data: \x7b\"choices\":[\x7b\"delta\":\x7b\"content\":\"Hello\"\x7d,\"finish_reason\":\"length\"\x7d]\x7d"

/-- The `get_weather` function declaration of the end-to-end scenario. -/
def weatherDecl : FunctionDeclaration :=
  { name := "get_weather"
    description := some "Get the weather"
    parameters := some (Schema.mk (some "OBJECT") none
      [("city", Schema.mk (some "STRING") none [] none none none)]
      none none (some ["city"])) }

/-- The tool configuration wrapping `weatherDecl`. -/
def weatherTool : ToolConfig :=
  { function_declarations := some [weatherDecl] }

/-- The outgoing parameters expected for `c3Req` (tool gate open). -/
def c3ParamsExpected : ApiParams :=
  { model := "m"
    messages := [{ role := "user", content := .str "What's the weather in Singapore?" }]
    stream := false
    tools := convert_tools ((some [weatherTool] : Option (List ToolConfig)))
    tool_choice := some "auto" }

/-- Claim C3's witness request: one user message asking about the weather,
one tool declared. -/
def c3Req : LlmRequest :=
  { contents := [{ role := some "user"
                   parts := [textPart "What's the weather in Singapore?"] }]
    config := { tools := some [weatherTool] } }

/-- Claim C10's witness request: a tool is declared, there is no tool
result, and the last message's content is a structured list (text plus an
image reference), not a string. -/
def c10Req : LlmRequest :=
  { contents := [{ role := some "user"
                   parts := [textPart "weather now",
                     { file_data := some { file_uri := some "http://example.com/img.png" } }] }]
    config := { tools := some [weatherTool] } }

/-- The response claim C9's witness expects from the SSE decode path. -/
def c9SseResponse : LlmResponse :=
  { content := some { role := "model", parts := [textPart "Hello"] }
    finish_reason := some .STOP }

/-- Claim C4's witness prefix: the start of a function-call payload. -/
def c4Pre : List StreamChunk := [.delta (some "\x7b\"name\"") [] none]

/-- Claim C4's witness suffix: a further text token after suppression has
begun. -/
def c4Suf : List StreamChunk := [.delta (some ": \"x\"") [] none]

/-- A stream state whose accumulated text already contains the first
suppression needle. -/
def c4State : StreamState :=
  { accumulated_content := "\x7b\"name\"", accumulated_tool_calls := [] }

/-! ## List/string lemmas for the suppression heuristic -/

lemma hasPrefixL_iff (w n : List Char) : hasPrefixL w n = true ↔ ∃ y, w = n ++ y := by
  induction n generalizing w with
  | nil => simp [hasPrefixL]
  | cons c ns ih =>
    cases w with
    | nil => simp [hasPrefixL]
    | cons a w' =>
      simp only [hasPrefixL, Bool.and_eq_true, beq_iff_eq, ih, List.cons_append,
        List.cons.injEq]
      constructor
      · rintro ⟨rfl, y, rfl⟩; exact ⟨y, rfl, rfl⟩
      · rintro ⟨y, rfl, rfl⟩; exact ⟨rfl, y, rfl⟩

lemma hasInfixL_iff (w n : List Char) : hasInfixL w n = true ↔ ∃ x y, w = x ++ n ++ y := by
  induction w with
  | nil =>
    simp only [hasInfixL, hasPrefixL_iff, Bool.or_false]
    constructor
    · rintro ⟨y, h⟩; exact ⟨[], y, by simpa using h⟩
    · rintro ⟨x, y, h⟩
      rw [List.append_assoc] at h
      rcases List.append_eq_nil.mp h.symm with ⟨rfl, h2⟩
      exact ⟨y, by simpa using h⟩
  | cons a w' ih =>
    simp only [hasInfixL, Bool.or_eq_true, hasPrefixL_iff, ih]
    constructor
    · rintro (⟨y, h⟩ | ⟨x, y, rfl⟩)
      · exact ⟨[], y, by simpa using h⟩
      · exact ⟨a :: x, y, rfl⟩
    · rintro ⟨x, y, h⟩
      cases x with
      | nil => exact Or.inl ⟨y, by simpa using h⟩
      | cons b x' =>
        simp only [List.cons_append, List.cons.injEq] at h
        exact Or.inr ⟨x', y, h.2⟩

lemma hasInfixL_append_right (w t n : List Char) (h : hasInfixL w n = true) :
    hasInfixL (w ++ t) n = true := by
  obtain ⟨x, y, rfl⟩ := (hasInfixL_iff _ _).mp h
  exact (hasInfixL_iff _ _).mpr ⟨x, y ++ t, by simp⟩

lemma stripL_decomp (w : List Char) : ∃ a b, w = a ++ stripL w ++ b := by
  refine ⟨w.takeWhile isPySpace,
    ((w.dropWhile isPySpace).reverse.takeWhile isPySpace).reverse, ?_⟩
  conv_lhs => rw [← List.takeWhile_append_dropWhile (p := isPySpace) (l := w)]
  rw [List.append_assoc]
  congr 1
  conv_lhs => rw [← List.reverse_reverse (w.dropWhile isPySpace),
    ← List.takeWhile_append_dropWhile (p := isPySpace)
      (l := (w.dropWhile isPySpace).reverse)]
  rw [List.reverse_append]
  rfl

lemma hasInfixL_of_stripL (w n : List Char) (h : hasInfixL (stripL w) n = true) :
    hasInfixL w n = true := by
  obtain ⟨a, b, hw⟩ := stripL_decomp w
  obtain ⟨x, y, hs⟩ := (hasInfixL_iff _ _).mp h
  exact (hasInfixL_iff _ _).mpr ⟨a ++ x, y ++ b, by rw [hw, hs]; simp⟩

lemma dropWhile_append_stop (x : List Char) (d : Char) (z : List Char)
    (hd : isPySpace d = false) :
    ∃ x1, (x ++ d :: z).dropWhile isPySpace = x1 ++ d :: z := by
  induction x with
  | nil => exact ⟨[], by simp [List.dropWhile_cons, hd]⟩
  | cons c x' ih =>
    by_cases hc : isPySpace c = true
    · obtain ⟨x1, h1⟩ := ih
      exact ⟨x1, by simpa [List.dropWhile_cons, hc] using h1⟩
    · exact ⟨c :: x', by simp [List.dropWhile_cons, Bool.eq_false_iff.mpr hc]⟩

lemma hasInfixL_dropWhile_of_nonspace (v m : List Char) (hne : m ≠ [])
    (hns : ∀ c ∈ m, isPySpace c = false) (h : hasInfixL v m = true) :
    hasInfixL (v.dropWhile isPySpace) m = true := by
  obtain ⟨x, y, rfl⟩ := (hasInfixL_iff _ _).mp h
  obtain ⟨m0, ms, rfl⟩ : ∃ m0 ms, m = m0 :: ms := by
    cases m with
    | nil => exact absurd rfl hne
    | cons m0 ms => exact ⟨m0, ms, rfl⟩
  obtain ⟨x1, hx1⟩ := dropWhile_append_stop x m0 (ms ++ y) (hns m0 (by simp))
  rw [show x ++ (m0 :: ms) ++ y = x ++ m0 :: (ms ++ y) by simp, hx1]
  exact (hasInfixL_iff _ _).mpr ⟨x1, y, by simp⟩

lemma hasInfixL_dropRev_of_nonspace (v m : List Char) (hne : m ≠ [])
    (hns : ∀ c ∈ m, isPySpace c = false) (h : hasInfixL v m = true) :
    hasInfixL ((v.reverse.dropWhile isPySpace).reverse) m = true := by
  obtain ⟨x, y, rfl⟩ := (hasInfixL_iff _ _).mp h
  obtain ⟨d, z, hdz⟩ : ∃ d z, m.reverse = d :: z := by
    cases hm : m.reverse with
    | nil => exact absurd (by simpa using congrArg List.reverse hm) hne
    | cons d z => exact ⟨d, z, rfl⟩
  have hdmem : d ∈ m := by
    have : d ∈ m.reverse := by rw [hdz]; simp
    simpa using this
  obtain ⟨y1, hy1⟩ := dropWhile_append_stop y.reverse d (z ++ x.reverse) (hns d hdmem)
  have hrev : (x ++ m ++ y).reverse = y.reverse ++ d :: (z ++ x.reverse) := by
    rw [List.reverse_append, List.reverse_append, hdz]; simp
  rw [hrev, hy1]
  refine (hasInfixL_iff _ _).mpr ⟨x, y1.reverse, ?_⟩
  have : (y1 ++ d :: (z ++ x.reverse)).reverse
      = x ++ (d :: z).reverse ++ y1.reverse := by
    simp [List.reverse_append]
  rw [this, ← hdz]
  simp

lemma hasInfixL_stripL_of_nonspace (w n : List Char) (hne : n ≠ [])
    (hns : ∀ c ∈ n, isPySpace c = false) (h : hasInfixL w n = true) :
    hasInfixL (stripL w) n = true :=
  hasInfixL_dropRev_of_nonspace _ _ hne hns
    (hasInfixL_dropWhile_of_nonspace _ _ hne hns h)

/-- The first suppression needle. -/
def nameNeedle : String := "\x7b\"name\""

/-- The second suppression needle. -/
def typeNeedle : String := "\x7b\"type\""

lemma hasInfixL_of_hasPrefixL (w n : List Char) (h : hasPrefixL w n = true) :
    hasInfixL w n = true := by
  cases w <;> simp [hasInfixL, h]

lemma looks_like_eq (s : String) :
    looks_like_function_call_in_progress s =
      (hasInfixL (stripL s.data) nameNeedle.data
        || hasInfixL (stripL s.data) typeNeedle.data) := by
  have e1 : pyContains (pyStrip s) nameNeedle = hasInfixL (stripL s.data) nameNeedle.data := rfl
  have e2 : pyContains (pyStrip s) typeNeedle = hasInfixL (stripL s.data) typeNeedle.data := rfl
  show (if pyStartsWith (pyStrip s) nameNeedle || pyStartsWith (pyStrip s) typeNeedle then true
    else if pyContains (pyStrip s) nameNeedle || pyContains (pyStrip s) typeNeedle then true
    else false) = _
  rw [e1, e2]
  cases h1 : pyStartsWith (pyStrip s) nameNeedle with
  | true =>
    have h1' : hasInfixL (stripL s.data) nameNeedle.data = true :=
      hasInfixL_of_hasPrefixL _ _ h1
    simp [h1']
  | false =>
    cases h2 : pyStartsWith (pyStrip s) typeNeedle with
    | true =>
      have h2' : hasInfixL (stripL s.data) typeNeedle.data = true :=
        hasInfixL_of_hasPrefixL _ _ h2
      simp [h2']
    | false =>
      cases h3 : hasInfixL (stripL s.data) nameNeedle.data <;>
        cases h4 : hasInfixL (stripL s.data) typeNeedle.data <;> simp [h3, h4]

lemma looks_like_mono (s t : String)
    (h : looks_like_function_call_in_progress s = true) :
    looks_like_function_call_in_progress (s ++ t) = true := by
  rw [looks_like_eq] at h ⊢
  rw [String.data_append]
  have hname : nameNeedle.data ≠ [] ∧ ∀ c ∈ nameNeedle.data, isPySpace c = false := by decide
  have htype : typeNeedle.data ≠ [] ∧ ∀ c ∈ typeNeedle.data, isPySpace c = false := by decide
  rcases Bool.or_eq_true _ _ |>.mp h with h' | h'
  · exact Bool.or_eq_true _ _ |>.mpr (Or.inl
      (hasInfixL_stripL_of_nonspace _ _ hname.1 hname.2
        (hasInfixL_append_right _ _ _ (hasInfixL_of_stripL _ _ h'))))
  · exact Bool.or_eq_true _ _ |>.mpr (Or.inr
      (hasInfixL_stripL_of_nonspace _ _ htype.1 htype.2
        (hasInfixL_append_right _ _ _ (hasInfixL_of_stripL _ _ h'))))

/-! ## Shape-matcher lemmas for the recovery heuristic -/

lemma shape1Match_none (data : List (String × JValue))
    (h : ((match jlookup data "type" with
           | some (.str s) => s == "function"
           | _ => false)
          && (jlookup data "function").isSome && (jlookup data "parameters").isSome) = false) :
    shape1Match data = none := by
  unfold shape1Match
  rcases hF : jlookup data "function" with _ | fv <;>
    rcases hP : jlookup data "parameters" with _ | pv <;>
      simp_all

lemma shape2Match_none (data : List (String × JValue))
    (h : ((jlookup data "name").isSome && (jlookup data "parameters").isSome) = false) :
    shape2Match data = none := by
  unfold shape2Match
  rcases hN : jlookup data "name" with _ | nv <;>
    rcases hP : jlookup data "parameters" with _ | pv <;>
      simp_all

lemma shape1Match_eq (data : List (String × JValue)) (fn ps : JValue)
    (hITF : (match jlookup data "type" with
             | some (.str s) => s == "function"
             | _ => false) = true)
    (hF : jlookup data "function" = some fn) (hP : jlookup data "parameters" = some ps) :
    shape1Match data = some (fn, objOrEmpty ps) := by
  unfold shape1Match
  simp [hF, hP, hITF]

lemma shape2Match_eq (data : List (String × JValue)) (nm ps : JValue)
    (hN : jlookup data "name" = some nm) (hP : jlookup data "parameters" = some ps) :
    shape2Match data = some (nm, objOrEmpty ps) := by
  unfold shape2Match
  simp [hN, hP]

lemma tryShapes_eq_firstMatch (env : PyEnv) (data : List (String × JValue)) (callId : JValue) :
    tryShapes env data callId
      = match firstMatch (shape1Match data)
          (firstMatch (shape2Match data) (shape3Match env data)) with
        | some na => some (functionCallPart na.1 na.2 callId)
        | none => none := by
  unfold tryShapes
  by_cases h1 : ((match jlookup data "type" with
      | some (.str s) => s == "function"
      | _ => false)
      && (jlookup data "function").isSome && (jlookup data "parameters").isSome) = true
  · rw [if_pos h1]
    have h1' := h1
    rw [Bool.and_eq_true, Bool.and_eq_true] at h1'
    obtain ⟨⟨hITF, hFs⟩, hPs⟩ := h1'
    obtain ⟨fn, hF⟩ := Option.isSome_iff_exists.mp hFs
    obtain ⟨ps, hP⟩ := Option.isSome_iff_exists.mp hPs
    rw [shape1Match_eq data fn ps hITF hF hP]
    simp only [firstMatch, hF, hP, Option.getD_some]
    unfold objOrEmpty
    cases ps <;> rfl
  · have h1f := Bool.eq_false_iff.mpr h1
    rw [if_neg h1]
    rw [shape1Match_none data h1f]
    by_cases h2 : ((jlookup data "name").isSome && (jlookup data "parameters").isSome) = true
    · rw [if_pos h2]
      have h2' := h2
      rw [Bool.and_eq_true] at h2'
      obtain ⟨hNs, hPs⟩ := h2'
      obtain ⟨nm, hN⟩ := Option.isSome_iff_exists.mp hNs
      obtain ⟨ps, hP⟩ := Option.isSome_iff_exists.mp hPs
      rw [shape2Match_eq data nm ps hN hP]
      simp only [firstMatch, hN, hP, Option.getD_some]
      unfold objOrEmpty
      cases ps <;> rfl
    · rw [if_neg h2]
      rw [shape2Match_none data (Bool.eq_false_iff.mpr h2)]
      show _ = match firstMatch none (firstMatch none (shape3Match env data)) with
        | some na => some (functionCallPart na.1 na.2 callId)
        | none => none
      simp only [firstMatch]
      unfold shape3Match
      rcases hF : jlookup data "function" with _ | fv
      · rfl
      · cases fv with
        | obj fkvs =>
          rcases hN2 : jlookup fkvs "name" with _ | nm <;>
            simp [hN2]
        | null => rfl
        | bool b => rfl
        | num n => rfl
        | str s => rfl
        | arr xs => rfl

/-! ## Claim C2 -/

/-- **C2 (amended).**  For every input text and allow flag, the heuristic
recovery returns absent when allow=false, when the trimmed text is not
bounded by braces, when JSON parsing fails, or when the parsed object
matches none of the three recognized shapes; otherwise the three shapes
are tried in order, first match wins, and the function-call part carries
that name, the args of the matched shape (the parameters object, `\x7b\x7d`
when shape 1/2's parameters is not an object; for shape 3 a string
parameters value is JSON-decoded with fallback `\x7b\x7d` and any other
value is kept as-is), and the id `call_` + (hash of the *trimmed* text
modulo 10000).  Stated as: the source function coincides with the
claim-worded `recoverySpec` on every environment, text and flag. -/
theorem C2_recovery_matches_spec (env : PyEnv) (text : String) (allow : Bool) :
    try_parse_function_call_from_text env text allow = recoverySpec env text allow := by
  unfold try_parse_function_call_from_text recoverySpec
  cases allow with
  | false => rfl
  | true =>
    by_cases hg : (pyStartsWith (pyStrip text) "\x7b" && pyEndsWith (pyStrip text) "\x7d") = true
    · simp only [hg, Bool.not_true, Bool.true_eq_false, if_false, Bool.false_eq_true]
      rcases env.json_loads (pyStrip text) with _ | v
      · rfl
      · rcases v with _ | b | n | s | xs | data
        · rfl
        · rfl
        · rfl
        · rfl
        · rfl
        · exact tryShapes_eq_firstMatch env data _
    · have hg' : (pyStartsWith (pyStrip text) "\x7b" && pyEndsWith (pyStrip text) "\x7d") = false :=
        by revert hg; cases (pyStartsWith (pyStrip text) "\x7b" && pyEndsWith (pyStrip text) "\x7d") <;> simp
      simp [hg']

/-- **C2 counterexample.**  At the concrete input `c2Text` (leading
whitespace, and a shape-3 `parameters` that is the number 5), the source
returns a part whose args are the number 5 — not the empty object the
claim's "defaulting to \x7b\x7d when parameters is not an object"
requires — and whose id is built from the hash of the *trimmed* text:
under `testEnv.py_hash` the raw text hashes to 45 but the id is
`call_44`. -/
theorem C2_counterexample :
    try_parse_function_call_from_text testEnv c2Text true
        = some (functionCallPart (.str "f") (.num 5) (.str "call_44"))
      ∧ JValue.num 5 ≠ JValue.obj []
      ∧ ("call_44" : String) ≠ "call_" ++ toString (testEnv.py_hash c2Text % 10000) :=
  ⟨by rfl, ⟨(by intro h; cases h), by decide⟩⟩

/-! ## Claims C6 and C7 -/

/-- **C6.**  For every Content entry (anywhere in the conversation) with
at least one function_result part, the encoder emits exactly one
`{role:"tool", tool_call_id: result.id, content: JSON(result.response)}`
message per function_result part, in part order, and no generic
role/content message for that entry: the entry's contribution is exactly
the filter-map over its parts, and non-function_result sibling parts
contribute nothing. -/
theorem C6_function_result_messages (env : PyEnv) (c : Content)
    (pre post : List Content)
    (h : c.parts.any (fun p => p.function_response.isSome) = true) :
    convert_contents_to_messages env (pre ++ c :: post)
      = convert_contents_to_messages env pre
        ++ c.parts.filterMap (fun p =>
            p.function_response.map (fun fr =>
              ({ role := "tool"
                 content := .str (env.json_dumps fr.response)
                 tool_call_id := some fr.id } : Message)))
        ++ convert_contents_to_messages env post := by
  have hne : c.parts.isEmpty = false := by
    cases hp : c.parts with
    | nil => rw [hp] at h; simp at h
    | cons a l => rfl
  unfold convert_contents_to_messages
  rw [List.flatMap_append, List.flatMap_cons, List.append_assoc]
  congr 1
  congr 1
  unfold messagesOfContent
  rw [hne, h]
  rfl

/-- **C6 witness.**  A user entry holding a text sibling and two
function-result parts encodes to exactly two tool messages (ids and
JSON-encoded responses in part order) and no generic message. -/
theorem C6_function_result_messages_witness :
    convert_contents_to_messages testEnv [c6Content]
      = [{ role := "tool", content := .str "\x7b\"temp\": 22\x7d", tool_call_id := some (some "id1") },
         { role := "tool", content := .str "null", tool_call_id := some none }] := by
  have h := C6_function_result_messages testEnv c6Content [] [] (by rfl)
  exact h.trans (by rfl)

/-- **C7.**  A single-user/single-text-part conversation encodes to
exactly one user message whose content is the bare text string; in
general a one-element converted item list that is text collapses to the
bare string, and an empty converted list collapses to the empty
string. -/
theorem C7_single_text_collapse (env : PyEnv) (s x : String) (parts : List Part) :
    (convert_contents_to_messages env [{ role := some "user", parts := [textPart s] }]
        = [{ role := "user", content := .str s }])
    ∧ (rawContentItems env parts = [ContentItem.text x] →
        convert_parts_to_content env parts = .str x)
    ∧ (rawContentItems env parts = [] →
        convert_parts_to_content env parts = .str "") := by
  refine ⟨?_, ?_, ?_⟩
  · by_cases hs : s = ""
    · subst hs; rfl
    · unfold convert_contents_to_messages messagesOfContent convert_parts_to_content
        rawContentItems itemOfPart textPart convert_role truthyOptStr
      simp [hs]
  · intro h
    unfold convert_parts_to_content
    rw [h]
  · intro h
    unfold convert_parts_to_content
    rw [h]

/-- **C7 witness.** -/
theorem C7_single_text_collapse_witness :
    (convert_contents_to_messages testEnv [{ role := some "user", parts := [textPart "hi"] }]
        = [{ role := "user", content := .str "hi" }])
      ∧ rawContentItems testEnv [textPart "hi"] = [ContentItem.text "hi"]
      ∧ convert_parts_to_content testEnv [textPart "hi"] = .str "hi"
      ∧ rawContentItems testEnv [] = []
      ∧ convert_parts_to_content testEnv [] = .str "" := by
  refine ⟨(C7_single_text_collapse testEnv "hi" "hi" [textPart "hi"]).1, by rfl, ?_, by rfl, ?_⟩
  · exact (C7_single_text_collapse testEnv "hi" "hi" [textPart "hi"]).2.1 (by rfl)
  · exact (C7_single_text_collapse testEnv "hi" "hi" []).2.2 (by rfl)

/-! ## Claims C3 and C10 -/

lemma add_generation_params_tools (p : ApiParams) (cfg : GenerateContentConfig) :
    (add_generation_params p cfg).tools = p.tools := rfl

lemma add_generation_params_tool_choice (p : ApiParams) (cfg : GenerateContentConfig) :
    (add_generation_params p cfg).tool_choice = p.tool_choice := rfl

/-- **C3.**  For every request whose assembly succeeds, the outgoing
parameters carry a tools list and `tool_choice="auto"` if and only if
(a) tool conversion produced at least one definition, (b) no converted
message has role "tool", and (c) the lower-cased string content of the
last message contains a trigger keyword; when the gate is open the tools
are exactly the converted list, and when any condition fails neither key
is present. -/
theorem C3_tool_attachment_gate (env : PyEnv) (model : String) (req : LlmRequest)
    (stream : Bool) (p : ApiParams)
    (h : build_api_params env model req stream = .ok p) :
    ((p.tools.isSome = true ∧ p.tool_choice = some "auto") ↔ toolGateConds env req = true)
    ∧ (toolGateConds env req = true → p.tools = convert_tools req.config.tools)
    ∧ (toolGateConds env req = false → p.tools = none ∧ p.tool_choice = none) := by
  unfold build_api_params at h
  unfold toolGateConds
  rcases hct : convert_tools req.config.tools with _ | ts <;> rw [hct] at h <;>
    simp only [bind, Except.bind, pure, Except.pure] at h
  · rw [Except.ok.injEq] at h
    subst h
    simp [add_generation_params_tools, add_generation_params_tool_choice, hct]
  · by_cases hany : ((assembled_messages env req).any fun m => decide (m.role = "tool")) = true
    · rw [if_pos hany] at h
      rw [Except.ok.injEq] at h
      subst h
      simp [add_generation_params_tools, add_generation_params_tool_choice, hany]
    · rw [if_neg hany] at h
      rw [Bool.not_eq_true] at hany
      rcases hlc : lastMessageContent (assembled_messages env req) with s | xs <;>
        rw [hlc] at h <;> dsimp only [] at h
      · by_cases hk : ((tool_keywords.any fun k => pyContains (pyLower s) k)) = true
        · rw [if_pos hk] at h
          rw [Except.ok.injEq] at h
          subst h
          simp [add_generation_params_tools, add_generation_params_tool_choice, hct,
            hany, hlc, keywordHit, hk]
        · rw [if_neg hk] at h
          rw [Except.ok.injEq] at h
          subst h
          rw [Bool.not_eq_true] at hk
          simp [add_generation_params_tools, add_generation_params_tool_choice,
            hany, hlc, keywordHit, hk]
      · cases h

/-- **C3 witness.**  The end-to-end scenario: a user message containing
the keyword "weather" and one declared tool opens the gate, and the body
carries the converted tools plus `tool_choice:"auto"`. -/
theorem C3_tool_attachment_gate_witness :
    build_api_params testEnv "m" c3Req false = .ok c3ParamsExpected
      ∧ c3ParamsExpected.tools = convert_tools c3Req.config.tools
      ∧ c3ParamsExpected.tool_choice = some "auto"
      ∧ toolGateConds testEnv c3Req = true := by
  have hb : build_api_params testEnv "m" c3Req false = .ok c3ParamsExpected := by rfl
  have h := C3_tool_attachment_gate testEnv "m" c3Req false c3ParamsExpected hb
  exact ⟨hb, h.2.1 (by rfl), (h.1.mpr (by rfl)).2, by rfl⟩

/-- **C10.**  When tools were converted, no converted message has role
"tool", and the last converted message's content is a structured list (not
a string), the keyword gate's `.lower()` raises, and the whole request is
answered with a single `TRANSFORMERS_API_ERROR` response instead of being
dispatched. -/
theorem C10_nonstring_content_reaches_error (env : PyEnv) (model : String)
    (req : LlmRequest) (transport : ApiParams → String)
    (ts : List JValue) (xs : List ContentItem)
    (ht : convert_tools req.config.tools = some ts)
    (hm : (assembled_messages env req).any (fun m => m.role = "tool") = false)
    (hl : lastMessageContent (assembled_messages env req) = .items xs) :
    build_api_params env model req false
        = .error (.attributeError "'list' object has no attribute 'lower'")
    ∧ generate_content_non_streaming env model req transport
        = [{ error_code := some "TRANSFORMERS_API_ERROR"
             error_message := some "'list' object has no attribute 'lower'" }] := by
  have hb : build_api_params env model req false
      = .error (.attributeError "'list' object has no attribute 'lower'") := by
    unfold build_api_params
    rw [ht]
    simp only [bind, Except.bind, pure, Except.pure]
    rw [if_neg (by rw [hm]; exact Bool.false_ne_true), hl]
  refine ⟨hb, ?_⟩
  unfold generate_content_non_streaming
  rw [hb]
  rfl

/-- **C10 witness.**  A request with the weather tool, no tool result, and
a last message whose content is a two-item list (text plus an image
reference) is answered with the single error response. -/
theorem C10_nonstring_content_reaches_error_witness :
    generate_content_non_streaming testEnv "m" c10Req (fun _ => "")
      = [{ error_code := some "TRANSFORMERS_API_ERROR"
           error_message := some "'list' object has no attribute 'lower'" }] :=
  (C10_nonstring_content_reaches_error testEnv "m" c10Req (fun _ => "")
    [toolOfDecl weatherDecl]
    [ContentItem.text "weather now", ContentItem.image_url "http://example.com/img.png"]
    (by rfl) (by rfl) (by rfl)).2

/-! ## Claim C9 -/

lemma convert_raw_inner_stop (env : PyEnv) (data : JValue) (hfr : Bool)
    (res : LlmResponse) (h : convert_raw_inner env data hfr = .ok res)
    (hc : res.content.isSome = true) : res.finish_reason = some .STOP := by
  unfold convert_raw_inner at h
  simp only [bind, Except.bind, pure, Except.pure] at h
  repeat' split at h
  all_goals
    first
      | exact Except.noConfusion h
      | (rw [Except.ok.injEq] at h; subst h; simp_all)

lemma parse_raw_streaming_stop (env : PyEnv) (t : String) (hfr : Bool)
    (res : LlmResponse) (h : parse_raw_streaming_response env t hfr = .ok res)
    (hc : res.content.isSome = true) : res.finish_reason = some .STOP := by
  unfold parse_raw_streaming_response at h
  simp only [bind, Except.bind, pure, Except.pure] at h
  repeat' split at h
  all_goals
    first
      | exact Except.noConfusion h
      | (rw [Except.ok.injEq] at h; subst h; simp_all)

/-- **C9.**  Every successful (content-carrying) response of either
non-streaming decode path — the single-JSON decoder and the SSE-shaped
raw-body decoder — carries finish_reason STOP, whatever finish_reason the
API payload contains (neither decoder ever reads it). -/
theorem C9_nonstreaming_decode_always_stop (env : PyEnv) (data : JValue) (t : String)
    (hfr hfr' : Bool) (r r' : LlmResponse) :
    (convert_raw_response_to_llm_response env data hfr = r → r.content.isSome = true →
      r.finish_reason = some .STOP)
    ∧ (parse_raw_streaming_response env t hfr' = .ok r' → r'.content.isSome = true →
      r'.finish_reason = some .STOP) := by
  constructor
  · intro h hc
    unfold convert_raw_response_to_llm_response at h
    cases hi : convert_raw_inner env data hfr with
    | ok res =>
      rw [hi] at h
      subst h
      exact convert_raw_inner_stop env data hfr res hi hc
    | error e =>
      rw [hi] at h
      subst h
      simp at hc
  · intro h hc
    exact parse_raw_streaming_stop env t hfr' r' h hc

/-- **C9 witness.**  A payload whose choice carries
`finish_reason: "length"` is still decoded with finish_reason STOP on both
paths. -/
theorem C9_nonstreaming_decode_always_stop_witness :
    ((convert_raw_response_to_llm_response testEnv c9Data false).content.isSome = true
      ∧ (convert_raw_response_to_llm_response testEnv c9Data false).finish_reason
          = some FinishReason.STOP)
    ∧ (parse_raw_streaming_response testEnv c9Body false = .ok c9SseResponse
      ∧ c9SseResponse.finish_reason = some FinishReason.STOP) := by
  constructor
  · refine ⟨by rfl, ?_⟩
    exact (C9_nonstreaming_decode_always_stop testEnv c9Data c9Body false false
      (convert_raw_response_to_llm_response testEnv c9Data false) c9SseResponse).1 rfl (by rfl)
  · refine ⟨by rfl, ?_⟩
    exact (C9_nonstreaming_decode_always_stop testEnv c9Data c9Body false false
      (convert_raw_response_to_llm_response testEnv c9Data false) c9SseResponse).2
      (by rfl) (by rfl)

/-! ## Claim C8 -/

lemma toolCallPartOf_eq_spec (env : PyEnv) (tc : JValue) (h : tcWellFormed tc = true) :
    toolCallPartOf env tc = .ok (toolCallPartSpec env tc) := by
  unfold tcWellFormed at h
  unfold toolCallPartOf toolCallPartSpec
  cases tc with
  | obj kvs =>
    dsimp only [] at h ⊢
    rcases hF : jlookup kvs "function" with _ | fv
    · simp [hF, pure, Except.pure]
    · rw [hF] at h
      cases fv with
      | obj fkvs =>
        dsimp only [] at h
        rcases hN : jlookup fkvs "name" with _ | nm
        · simp [hN, pure, Except.pure]
        · rcases hA : jlookup fkvs "arguments" with _ | av
          · simp [hN, hA, pure, Except.pure]
          · rw [hA] at h
            dsimp only [] at h
            by_cases htr : pyTruthy av = true
            · rw [htr] at h
              simp only [Bool.not_true, Bool.false_or] at h
              cases av with
              | str s =>
                rcases hL : env.json_loads s with _ | args <;>
                  simp [hL, hN, hA, htr, pure, Except.pure]
              | null => simp [pyTruthy] at htr
              | bool b => simp_all
              | num n => simp_all
              | arr xs => simp_all
              | obj o => simp_all
            · rw [Bool.not_eq_true] at htr
              simp [hN, hA, htr, pure, Except.pure]
      | null => simp at h
      | bool b => simp at h
      | num n => simp at h
      | str s => simp at h
      | arr a => simp at h
  | null => simp at h
  | bool b => simp at h
  | num n => simp at h
  | str s => simp at h
  | arr a => simp at h

lemma mapM_toolCallPartOf (env : PyEnv) (tcs : List JValue)
    (h : ∀ tc ∈ tcs, tcWellFormed tc = true) :
    tcs.mapM (toolCallPartOf env) = .ok (tcs.map (toolCallPartSpec env)) := by
  induction tcs with
  | nil => rfl
  | cons a l ih =>
    rw [List.mapM_cons, toolCallPartOf_eq_spec env a (h a (by simp)),
      ih (fun tc htc => h tc (by simp [htc]))]
    rfl

/-- **C8 (amended).**  When the message carries both truthy content (a
string) and truthy tool_calls (a list of well-formed entries), the result
is a successful STOP response whose parts are one text part for the
content followed by one function-call part per surviving tool call; a
tool call whose `function`, `name` or **`arguments`** key is missing, or
whose argument string is malformed JSON, is skipped individually (args
default to `\x7b\x7d` only for an *empty or null* argument value, not for a
missing `arguments` key). -/
theorem C8_content_with_tool_calls (env : PyEnv) (hfr : Bool)
    (dkvs ckvs mkvs : List (String × JValue)) (rest : List JValue)
    (c : String) (tcs : List JValue)
    (hch : jlookup dkvs "choices" = some (.arr (.obj ckvs :: rest)))
    (hmsg : jlookup ckvs "message" = some (.obj mkvs))
    (hcont : jlookup mkvs "content" = some (.str c)) (hc : c ≠ "")
    (htc : jlookup mkvs "tool_calls" = some (.arr tcs)) (htcne : tcs ≠ [])
    (hwf : ∀ tc ∈ tcs, tcWellFormed tc = true) :
    convert_raw_response_to_llm_response env (.obj dkvs) hfr
      = { content := some ⟨"model", textPart c :: tcs.filterMap (toolCallPartSpec env)⟩
          finish_reason := some .STOP } := by
  have hce : (c != "") = true := by simpa using hc
  have htce : tcs.isEmpty = false := by
    cases tcs with
    | nil => exact absurd rfl htcne
    | cons a l => rfl
  have hinner : convert_raw_inner env (.obj dkvs) hfr
      = .ok { content := some ⟨"model", textPart c :: tcs.filterMap (toolCallPartSpec env)⟩
              finish_reason := some .STOP } := by
    unfold convert_raw_inner
    simp only [bind, Except.bind, pure, Except.pure, pyInKey, pyGetItem, pyIdx0, pyDictGet,
      hch, hmsg, hcont, htc, Option.isSome_some, Option.getD_some, pyTruthy,
      List.isEmpty_cons, Bool.not_false, Bool.not_true, Bool.false_or, Bool.or_self,
      if_false, hce, htce, mapM_toolCallPartOf env tcs hwf]
    simp [List.filterMap_map]
  unfold convert_raw_response_to_llm_response
  rw [hinner]

/-- **C8 counterexample.**  On a payload whose single tool call lacks the
`arguments` key, the claim requires a function-call part with args
`\x7b\x7d`; the source instead skips that tool call (`KeyError` caught)
and the response contains only the text part. -/
theorem C8_counterexample :
    convert_raw_response_to_llm_response testEnv c8CexData false
        = { content := some ⟨"model", [textPart "hi"]⟩, finish_reason := some .STOP }
      ∧ (textPart "hi").function_call = none :=
  ⟨by rfl, rfl⟩

/-- **C8 witness.**  Content plus two tool calls: the well-formed one
becomes a function-call part (empty-object args from the `"\x7b\x7d"`
argument string, id `"a"`), the one with malformed argument JSON is
skipped, and the response is still successful. -/
theorem C8_content_with_tool_calls_witness :
    convert_raw_response_to_llm_response testEnv (.obj c8WitData) false
      = { content := some ⟨"model",
            [textPart "hi", functionCallPart (.str "f") (.obj []) (.str "a")]⟩
          finish_reason := some .STOP } := by
  have h := C8_content_with_tool_calls testEnv false c8WitData c8WitChoice c8WitMsg []
    "hi" c8WitToolCalls (by rfl) (by rfl) (by rfl) (by decide) (by rfl)
    (by intro h; cases h) (by decide)
  exact h.trans (by rfl)

/-! ## Claim C5 -/

lemma processFrame_eq_spec (env : PyEnv) (line : String)
    (h : frameWellFormed env line = true) :
    processFrame env line = .ok ((frameFragmentSpec env line).map JValue.str) := by
  unfold frameWellFormed at h
  unfold processFrame frameFragmentSpec
  dsimp only [] at h ⊢
  by_cases hd : pyStartsWith (pyStrip line) "data: " = true
  · rw [if_pos hd] at h
    rw [if_pos hd, if_pos hd]
    rcases hL : env.json_loads (pyDrop (pyStrip line) 6) with _ | v <;> rw [hL] at h
    · rfl
    · cases v with
      | obj kvs =>
        dsimp only [] at h
        simp only [bind, Except.bind, pure, Except.pure, pyInKey, pyGetItem, pyIdx0, pyLen]
        rcases hC : jlookup kvs "choices" with _ | cv <;> rw [hC] at h <;>
          (try dsimp only [] at h)
        · rfl
        · cases cv with
          | arr xs =>
            cases xs with
            | nil => rfl
            | cons c0 cs =>
              cases c0 with
              | obj ckvs =>
                dsimp only [] at h
                simp only [Option.isSome_some, if_true, List.length_cons,
                  Nat.succ_sub_one, if_pos (Nat.succ_pos cs.length)]
                rcases hD : jlookup ckvs "delta" with _ | dv <;> rw [hD] at h <;>
                  (try dsimp only [] at h)
                · simp
                · cases dv with
                  | obj dkvs =>
                    dsimp only [] at h
                    simp only [Option.isSome_some, if_true]
                    rcases hCt : jlookup dkvs "content" with _ | v2 <;> rw [hCt] at h <;>
                      (try dsimp only [] at h)
                    · simp
                    · by_cases htr : pyTruthy v2 = true
                      · rw [htr] at h
                        simp only [Bool.not_true, Bool.false_or] at h
                        cases v2 with
                        | str s =>
                          have hs : s ≠ "" := by
                            intro hs0
                            rw [hs0] at htr
                            simp [pyTruthy] at htr
                          simp [htr, hs]
                        | null => simp [pyTruthy] at htr
                        | bool b => simp_all
                        | num n => simp_all
                        | arr a => simp_all
                        | obj o => simp_all
                      · rw [Bool.not_eq_true] at htr
                        cases v2 with
                        | str s =>
                          have hs : s = "" := by
                            by_contra hs0
                            simp [pyTruthy, hs0] at htr
                          subst hs
                          simp [htr]
                        | null => simp [htr]
                        | bool b => simp [htr]
                        | num n => simp [htr]
                        | arr a => simp [htr]
                        | obj o => simp [htr]
                  | null => simp at h
                  | bool b => simp at h
                  | num n => simp at h
                  | str s => simp at h
                  | arr a => simp at h
              | null => simp at h
              | bool b => simp at h
              | num n => simp at h
              | str s => simp at h
              | arr a => simp at h
          | null => simp at h
          | bool b => simp at h
          | num n => simp at h
          | str s => simp at h
          | obj o => simp at h
      | null => simp at h
      | bool b => simp at h
      | num n => simp at h
      | str s => simp at h
      | arr a => simp at h
  · rw [if_neg hd, if_neg hd]
    rfl

lemma mapM_processFrame (env : PyEnv) (lines : List String)
    (h : ∀ l ∈ lines, frameWellFormed env l = true) :
    lines.mapM (processFrame env)
      = .ok (lines.map (fun l => (frameFragmentSpec env l).map JValue.str)) := by
  induction lines with
  | nil => rfl
  | cons a l ih =>
    rw [List.mapM_cons, processFrame_eq_spec env a (h a (by simp)),
      ih (fun x hx => h x (by simp [hx]))]
    rfl

lemma filterMap_optmap_str (l : List (Option String)) :
    (l.map (fun o => o.map JValue.str)).filterMap id = (l.filterMap id).map JValue.str := by
  induction l with
  | nil => rfl
  | cons a t ih => cases a <;> simp [ih]

lemma joinStrs_map_str (ss : List String) :
    joinStrs (ss.map JValue.str) = .ok (concatStrs ss) := by
  induction ss with
  | nil => rfl
  | cons a t ih =>
    simp [joinStrs, concatStrs, ih, bind, Except.bind, pure, Except.pure]

lemma parse_raw_eq_sse (env : PyEnv) (t : String) (hfr : Bool)
    (h : ∀ l ∈ pySplitChar '\n' t, frameWellFormed env l = true) :
    parse_raw_streaming_response env t hfr = .ok (sse_result env t hfr) := by
  unfold parse_raw_streaming_response sse_result sse_concat
  rw [mapM_processFrame env _ h]
  simp only [bind, Except.bind, pure, Except.pure]
  rw [show (pySplitChar '\n' t).map (fun l => (frameFragmentSpec env l).map JValue.str)
        = ((pySplitChar '\n' t).map (frameFragmentSpec env)).map (fun o => o.map JValue.str)
      from by rw [List.map_map]; rfl]
  rw [filterMap_optmap_str, joinStrs_map_str]
  rw [show ((pySplitChar '\n' t).map (frameFragmentSpec env)).filterMap id
        = (pySplitChar '\n' t).filterMap (frameFragmentSpec env)
      from by rw [List.filterMap_map]; rfl]
  dsimp only []
  by_cases hc : concatStrs ((pySplitChar '\n' t).filterMap (frameFragmentSpec env)) ≠ ""
  · rw [if_pos hc, if_pos hc]
    cases try_parse_function_call_from_text env
      (concatStrs ((pySplitChar '\n' t).filterMap (frameFragmentSpec env))) (!hfr) <;> rfl
  · rw [if_neg hc, if_neg hc]

/-- **C5.**  A raw non-streaming HTTP body whose stripped text starts with
`data:` is decoded as a server-sent-event stream, not single JSON: under
the wire-protocol frame shapes, the result is exactly the claim-worded
`sse_result` — the line-ordered concatenation of every parseable frame's
`choices[0].delta.content` fragment as one final STOP response (with
function-call recovery applied to the concatenation, gated on the absence
of tool messages), or a `NO_CONTENT` error when the concatenation is
empty. -/
theorem C5_sse_shaped_body (env : PyEnv) (p : ApiParams) (body : String)
    (hsse : pyStartsWith (pyStrip body) "data:" = true)
    (hwf : ∀ l ∈ pySplitChar '\n' (pyStrip body), frameWellFormed env l = true) :
    make_raw_http_result env p body
      = sse_result env (pyStrip body) (p.messages.any (fun m => m.role = "tool")) := by
  unfold make_raw_http_result
  rw [if_pos hsse, parse_raw_eq_sse env _ _ hwf]

/-- **C5 witness.**  The end-to-end scenario: the SSE-shaped body
`data: {"choices":[{"delta":{"content":"Hello"}}]}` reduces to the final
text "Hello" with finish reason STOP, through the concatenation
`sse_concat = "Hello"`. -/
theorem C5_sse_shaped_body_witness :
    make_raw_http_result testEnv c5Params c5Body
        = { content := some ⟨"model", [textPart "Hello"]⟩, finish_reason := some .STOP }
      ∧ sse_concat testEnv (pyStrip c5Body) = "Hello" := by
  constructor
  · have h := C5_sse_shaped_body testEnv c5Params c5Body (by decide) (by decide)
    exact h.trans (by rfl)
  · rfl

/-! ## Claim C1 -/

lemma finishStep_eq_spec (env : PyEnv) (st : StreamState) (fr : Option String) :
    finishStep env st fr
      = finishEmissionsSpec env st.accumulated_content st.accumulated_tool_calls fr := by
  unfold finishStep finishEmissionsSpec
  dsimp only []
  by_cases ha : st.accumulated_content ≠ ""
  · cases htp : try_parse_function_call_from_text env st.accumulated_content true with
    | none =>
      rw [if_pos ha, if_pos ha]
      dsimp only []
      rw [if_pos ha]
    | some p =>
      rw [if_pos ha, if_pos ha]
  · rw [if_neg ha, if_neg ha]
    dsimp only []
    rw [if_neg ha]

lemma finishEmissionsSpec_facts (env : PyEnv) (acc : String)
    (tcs : List (Nat × ToolCallAcc)) (fr : Option String) :
    (finishEmissionsSpec env acc tcs fr).length ≤ 2
    ∧ ∀ r ∈ finishEmissionsSpec env acc tcs fr,
        r.finish_reason = some (convert_finish_reason fr) ∧ r.incremental = none := by
  unfold finishEmissionsSpec
  dsimp only []
  cases htp : (if acc ≠ "" then try_parse_function_call_from_text env acc true else none) with
  | some p =>
    dsimp only []
    constructor
    · by_cases he : (!(([] : List Part) ++ finishToolParts env tcs).isEmpty) = true
      · rw [if_pos he]; simp
      · rw [if_neg he]; simp
    · intro r hr
      by_cases he : (!(([] : List Part) ++ finishToolParts env tcs).isEmpty) = true
      · rw [if_pos he] at hr
        simp at hr
        rcases hr with rfl | rfl <;> exact ⟨rfl, rfl⟩
      · rw [if_neg he] at hr
        simp only [List.append_nil, List.mem_singleton] at hr
        subst hr
        exact ⟨rfl, rfl⟩
  | none =>
    dsimp only []
    constructor
    · by_cases he : (!((if acc ≠ "" then [textPart acc] else [])
          ++ finishToolParts env tcs).isEmpty) = true
      · rw [if_pos he]; simp
      · rw [if_neg he]; simp
    · intro r hr
      by_cases he : (!((if acc ≠ "" then [textPart acc] else [])
          ++ finishToolParts env tcs).isEmpty) = true
      · rw [if_pos he] at hr
        simp only [List.nil_append, List.mem_singleton] at hr
        subst hr
        exact ⟨rfl, rfl⟩
      · rw [if_neg he] at hr
        simp at hr

lemma finishEmissionsSpec_filter_final (env : PyEnv) (acc : String)
    (tcs : List (Nat × ToolCallAcc)) (fr : Option String) :
    (finishEmissionsSpec env acc tcs fr).filter isFinal
      = finishEmissionsSpec env acc tcs fr := by
  apply List.filter_eq_self.mpr
  intro r hr
  have hfact := (finishEmissionsSpec_facts env acc tcs fr).2 r hr
  simp [isFinal, hfact.2]

/-- **C1 (amended).**  During streaming, a chunk carrying a finish signal
emits, among its responses, exactly the finals that `finishEmissionsSpec`
describes for the post-update state: the recovered function-call part (if
the accumulated text recovers) *alone* in one final response, and the
unrecovered text part together with the accumulated tool-call parts (one
per fragment with a non-empty name) combined into at most one further
final response — hence up to **two** final non-partial responses per
finish chunk, not one, each carrying the mapped finish reason. -/
theorem C1_finish_chunk_emissions (env : PyEnv) (st : StreamState)
    (content : Option String) (tcs : List DeltaToolCall) (fr : Option String)
    (hfr : truthyOptStr fr = true) :
    ((processChunk env st (.delta content tcs fr)).2.filter isFinal
        = finishEmissionsSpec env
            (processChunk env st (.delta content tcs fr)).1.accumulated_content
            (processChunk env st (.delta content tcs fr)).1.accumulated_tool_calls fr)
      ∧ ((processChunk env st (.delta content tcs fr)).2.filter isFinal).length ≤ 2
      ∧ ∀ r ∈ (processChunk env st (.delta content tcs fr)).2.filter isFinal,
          r.finish_reason = some (convert_finish_reason fr) ∧ r.incremental = none := by
  have heq : (processChunk env st (.delta content tcs fr)).2.filter isFinal
      = finishEmissionsSpec env
          (processChunk env st (.delta content tcs fr)).1.accumulated_content
          (processChunk env st (.delta content tcs fr)).1.accumulated_tool_calls fr := by
    unfold processChunk
    dsimp only []
    by_cases hct : truthyOptStr content = true
    · by_cases hlk : looks_like_function_call_in_progress
          (st.accumulated_content ++ content.getD "") = true
      · simp only [hfr, hct, hlk, if_true, Bool.not_true, Bool.false_eq_true, if_false,
          List.nil_append, List.filter_append, finishStep_eq_spec]
        simp [isFinal, finishEmissionsSpec_filter_final]
      · simp only [Bool.not_eq_true] at hlk
        simp only [hfr, hct, hlk, if_true, Bool.not_false, List.filter_append,
          finishStep_eq_spec]
        simp [isFinal, finishEmissionsSpec_filter_final]
    · simp only [Bool.not_eq_true] at hct
      simp only [hfr, hct, Bool.false_eq_true, if_false, if_true, List.nil_append,
        List.filter_append, finishStep_eq_spec]
      simp [isFinal, finishEmissionsSpec_filter_final]
  refine ⟨heq, ?_, ?_⟩
  · rw [heq]
    exact (finishEmissionsSpec_facts env _ _ fr).1
  · rw [heq]
    exact (finishEmissionsSpec_facts env _ _ fr).2

/-- **C1 witness.** -/
theorem C1_finish_chunk_emissions_witness :
    ((processChunk testEnv initStreamState
        (.delta (some "ok") [] (some "stop"))).2.filter isFinal).length ≤ 2
      ∧ ((processChunk testEnv initStreamState
          (.delta (some "ok") [] (some "stop"))).2.filter isFinal
        = finishEmissionsSpec testEnv "ok" [] (some "stop")) := by
  have h := C1_finish_chunk_emissions testEnv initStreamState (some "ok") [] (some "stop")
    (by decide)
  exact ⟨h.2.1, h.1.trans (by rfl)⟩

/-- **C1 counterexample.**  The claim's "at most one final (non-partial)
response ... combined into a single final non-partial response" fails: a
single protocol-conformant finish chunk whose accumulated text recovers to
a function call *and* which carries an accumulated tool-call fragment
makes `_stream_completion` yield **two** final responses. -/
theorem C1_counterexample :
    ((stream_completion testEnv [c1Chunk]).filter isFinal).length = 2 := by decide

/-! ## Claim C4 -/

lemma str_append_empty (s : String) : s ++ "" = s := by
  cases s with
  | mk l => exact congrArg String.mk (List.append_nil l)

lemma processChunk_delta_content (env : PyEnv) (st : StreamState)
    (c : Option String) (t : List DeltaToolCall) (f : Option String) :
    (processChunk env st (.delta c t f)).1.accumulated_content
      = st.accumulated_content ++ (if truthyOptStr c then c.getD "" else "") := by
  unfold processChunk
  dsimp only []
  by_cases hct : truthyOptStr c = true
  · by_cases hlk : looks_like_function_call_in_progress
        (st.accumulated_content ++ c.getD "") = true <;>
      by_cases hte : t.isEmpty = true <;>
        simp [hct, hlk, hte]
  · simp only [Bool.not_eq_true] at hct
    by_cases hte : t.isEmpty = true <;>
      simp [hct, hte, str_append_empty]

lemma processChunk_delta_no_incremental (env : PyEnv) (st : StreamState)
    (c : Option String) (t : List DeltaToolCall) (f : Option String)
    (hl : looks_like_function_call_in_progress
        (st.accumulated_content ++ (if truthyOptStr c then c.getD "" else "")) = true) :
    ∀ r ∈ (processChunk env st (.delta c t f)).2, isIncrementalChunk r = false := by
  intro r hr
  unfold processChunk at hr
  dsimp only [] at hr
  have hfin : ∀ (st' : StreamState),
      r ∈ (if truthyOptStr f then finishStep env st' f else []) →
      isIncrementalChunk r = false := by
    intro st' hr'
    by_cases hf : truthyOptStr f = true
    · rw [if_pos hf, finishStep_eq_spec] at hr'
      have hfact := (finishEmissionsSpec_facts env _ _ f).2 r hr'
      simp [isIncrementalChunk, hfact.2]
    · rw [if_neg hf] at hr'
      simp at hr'
  by_cases hct : truthyOptStr c = true
  · have hl' : looks_like_function_call_in_progress
        (st.accumulated_content ++ c.getD "") = true := by
      rw [if_pos hct] at hl
      exact hl
    rw [if_pos hct, if_neg (by rw [hl']; simp)] at hr
    · exact hfin _ (by simpa using hr)
  · rw [if_neg hct] at hr
    exact hfin _ (by simpa using hr)

lemma looks_like_preserved (env : PyEnv) (st : StreamState) (c : StreamChunk)
    (hc : StreamChunk.isDelta c = true)
    (hl : looks_like_function_call_in_progress st.accumulated_content = true) :
    looks_like_function_call_in_progress
      (processChunk env st c).1.accumulated_content = true := by
  cases c with
  | str s => simp [StreamChunk.isDelta] at hc
  | noChoices => exact hl
  | delta co t f =>
    rw [processChunk_delta_content]
    by_cases hct : truthyOptStr co = true
    · rw [if_pos hct]
      exact looks_like_mono _ _ hl
    · rw [if_neg hct, str_append_empty]
      exact hl

lemma runStream_cons (env : PyEnv) (st : StreamState) (a : StreamChunk)
    (t : List StreamChunk) :
    runStream env st (a :: t)
      = ((runStream env (processChunk env st a).1 t).1,
         (processChunk env st a).2 ++ (runStream env (processChunk env st a).1 t).2) := rfl

lemma runStream_append (env : PyEnv) (st : StreamState) (l1 l2 : List StreamChunk) :
    runStream env st (l1 ++ l2)
      = ((runStream env (runStream env st l1).1 l2).1,
         (runStream env st l1).2 ++ (runStream env (runStream env st l1).1 l2).2) := by
  induction l1 generalizing st with
  | nil => rfl
  | cons a t ih =>
    rw [List.cons_append, runStream_cons, ih, runStream_cons]
    simp [List.append_assoc]

lemma runStream_suppressed (env : PyEnv) (chunks : List StreamChunk) (st : StreamState)
    (hd : ∀ c ∈ chunks, StreamChunk.isDelta c = true)
    (hl : looks_like_function_call_in_progress st.accumulated_content = true) :
    ∀ r ∈ (runStream env st chunks).2, isIncrementalChunk r = false := by
  induction chunks generalizing st with
  | nil =>
    intro r hr
    simp [runStream] at hr
  | cons a t ih =>
    intro r hr
    rw [runStream_cons] at hr
    rcases List.mem_append.mp hr with hr1 | hr2
    · cases a with
      | str s => simp [StreamChunk.isDelta] at hd
      | noChoices => simp [processChunk] at hr1
      | delta co tq f =>
        refine processChunk_delta_no_incremental env st co tq f ?_ r hr1
        by_cases hct : truthyOptStr co = true
        · rw [if_pos hct]
          exact looks_like_mono _ _ hl
        · rw [if_neg hct, str_append_empty]
          exact hl
    · exact ih (processChunk env st a).1 (fun c hc => hd c (by simp [hc]))
        (looks_like_preserved env st a (hd a (by simp)) hl) r hr2

/-- **C4.**  Once the accumulated text matches the in-progress
function-call heuristic, no partial=true text chunk is emitted for the
token that completed the match (first conjunct) or for any later chunk of
a delta-chunk stream (the wire protocol's decoded form): the whole
remainder of the stream emits only non-incremental responses. -/
theorem C4_suppression_persists (env : PyEnv) (st : StreamState)
    (tok : String) (dtc : List DeltaToolCall) (f : Option String)
    (pre suf : List StreamChunk)
    (h1 : looks_like_function_call_in_progress (st.accumulated_content ++ tok) = true)
    (hd : ∀ c ∈ suf, StreamChunk.isDelta c = true)
    (h2 : looks_like_function_call_in_progress
        (runStream env initStreamState pre).1.accumulated_content = true) :
    (∀ r ∈ (processChunk env st (.delta (some tok) dtc f)).2, isIncrementalChunk r = false)
    ∧ stream_completion env (pre ++ suf)
        = (runStream env initStreamState pre).2
          ++ (runStream env (runStream env initStreamState pre).1 suf).2
    ∧ ∀ r ∈ (runStream env (runStream env initStreamState pre).1 suf).2,
        isIncrementalChunk r = false := by
  refine ⟨?_, ?_, ?_⟩
  · apply processChunk_delta_no_incremental
    by_cases ht : tok = ""
    · subst ht
      simp only [truthyOptStr, bne_self_eq_false, Bool.false_eq_true, if_false]
      exact h1
    · have : truthyOptStr (some tok) = true := by simp [truthyOptStr, ht]
      rw [if_pos this]
      exact h1
  · unfold stream_completion
    rw [runStream_append]
  · exact runStream_suppressed env suf _ hd h2

/-- **C4 witness.**  After the prefix token `{"name"` the heuristic fires;
the suffix token emits no partial chunk. -/
theorem C4_suppression_persists_witness :
    ((runStream testEnv (runStream testEnv initStreamState c4Pre).1 c4Suf).2.all
        (fun r => !(isIncrementalChunk r))) = true
    ∧ stream_completion testEnv (c4Pre ++ c4Suf)
        = (runStream testEnv initStreamState c4Pre).2
          ++ (runStream testEnv (runStream testEnv initStreamState c4Pre).1 c4Suf).2 := by
  have h := C4_suppression_persists testEnv c4State ":" [] none c4Pre c4Suf
    (by decide) (by decide) (by decide)
  refine ⟨?_, h.2.1⟩
  rw [List.all_eq_true]
  intro r hr
  rw [h.2.2 r hr]
  rfl

end TransformersLlm
